import Mathlib

/-!
# TechGrid form bridge

A shallow embedding of `src/assets/js/api-integration.js` (class `TechGridAPI`)
and the properties of its payload builders, loading-state guard, toast
presentation, request executor and submit handlers.

JavaScript values are embedded as follows.
* A string is a `String`; `formData.get(name)` is an `Option String`, `none`
  being `null` (the form has no entry of that name).
* A value read from a parsed JSON body is a `Json`; a property read is an
  `Option Json`, `none` being `undefined`.
* A thrown exception is a `JsError`; code that can throw returns `Except`.
* What the CSS and HTML parsers of the browser do beyond the cases the
  definitions resolve themselves is a `Browser`, a parameter of the handlers.
-/

namespace TechGrid

/-! ## Strings -/

/-- JavaScript truthiness of a string: every string but the empty one. -/
def strTruthy (s : String) : Bool :=
  s.data ≠ []

/-- The test `s.startsWith('+')`. -/
def startsWithPlus (s : String) : Bool :=
  match s.data with
  | '+' :: _ => true
  | _ => false

/-- The call `s.replace(/^0/, '')`: a `0` at the very start of the string is
dropped, nothing else changes. -/
def replaceLeadingZero (s : String) : String :=
  match s.data with
  | '0' :: rest => ⟨rest⟩
  | _ => s

/-- The test `s.includes(sub)`. -/
def includes (s sub : String) : Bool :=
  decide (sub.data <:+: s.data)

/-! ## Form data -/

/-- The entry list of a `FormData` object (string entries). -/
abbrev FormData := List (String × String)

/-- The call `formData.get(name)`: the value of the first entry of that name,
`null` when there is none. -/
def FormData.get (fd : FormData) (name : String) : Option String :=
  match fd with
  | [] => none
  | (k, v) :: rest => if k = name then some v else FormData.get rest name

/-- The expression `a || b` on two `formData.get` results. -/
def orElse (a b : Option String) : Option String :=
  match a with
  | some s => if strTruthy s then some s else b
  | none => b

/-- The expression `a || "literal"` on a `formData.get` result. -/
def orDefault (a : Option String) (d : String) : String :=
  match a with
  | some s => if strTruthy s then s else d
  | none => d

/-! ## Phone normalisation (lines 173-179 and 259-265) -/

/-- Lines 174-179 of `initContactForm`: the `phone` of the contact payload. -/
def contactPhone (fd : FormData) : Option String :=
  match fd.get "phone" with
  | none => none
  | some phone =>
    if strTruthy phone && !startsWithPlus phone then
      some ("+234" ++ replaceLeadingZero phone)
    else
      some phone

/-- Lines 260-265 of `initRegistrationForm`: the `phone` of the registration
payload. -/
def registrationPhone (fd : FormData) : Option String :=
  match fd.get "phone" with
  | none => none
  | some phone =>
    if strTruthy phone && !startsWithPlus phone then
      some ("+234" ++ replaceLeadingZero phone)
    else
      some phone

/-- The reference of the specification, written from its words: an absent or
empty value is passed through; a value starting with `+` is passed through;
any other value becomes `+234` followed by the value without its one leading
`0`, when it has one. -/
def phoneReference (raw : Option String) : Option String :=
  match raw with
  | none => none
  | some v =>
    match v.data with
    | [] => some v
    | '+' :: _ => some v
    | '0' :: rest => some ⟨'+' :: '2' :: '3' :: '4' :: rest⟩
    | other => some ⟨'+' :: '2' :: '3' :: '4' :: other⟩

/-! ## Payloads -/

/-- The object `data` built by `initContactForm` (lines 181-187). -/
structure ContactData where
  name : Option String
  email : Option String
  phone : Option String
  subject : Option String
  message : Option String
  deriving DecidableEq, Repr

/-- Lines 172-187 of `initContactForm`. -/
def contactData (fd : FormData) : ContactData :=
  { name := fd.get "name"
    email := fd.get "email"
    phone := contactPhone fd
    subject := fd.get "subject"
    message := fd.get "message" }

/-- The object `data` built by `initRegistrationForm` (lines 267-282). -/
structure RegistrationData where
  firstName : Option String
  lastName : Option String
  email : Option String
  phone : Option String
  company : String
  jobTitle : String
  experience : String
  interests : List String
  expectations : String
  newsletter : Bool
  terms : Bool
  deriving DecidableEq, Repr

/-- Lines 248-282 of `initRegistrationForm`; `interests` are the values of the
checked `interests` checkboxes (lines 251-257). -/
def registrationData (fd : FormData) (interests : List String) : RegistrationData :=
  { firstName := orElse (fd.get "firstName") (fd.get "first_name")
    lastName := orElse (fd.get "lastName") (fd.get "last_name")
    email := fd.get "email"
    phone := registrationPhone fd
    company := orDefault (fd.get "company") ""
    jobTitle := orDefault (orElse (fd.get "jobTitle") (fd.get "job_title")) ""
    experience := orDefault (fd.get "experience") "intermediate"
    interests := interests
    expectations := orDefault (fd.get "expectations") ""
    newsletter := fd.get "newsletter" == some "on" || fd.get "newsletter" == some "true"
    terms := fd.get "terms" == some "on" || fd.get "terms" == some "1"
      || fd.get "terms" == some "true" }

/-- The recognised truthy encodings of a checkbox value, from the
specification: `"on"`, `"1"`, `"true"`. -/
def truthyEncoding (raw : Option String) : Bool :=
  raw == some "on" || raw == some "1" || raw == some "true"

/-- The object `data` built by `initNewsletterForms` (lines 350-356). -/
structure NewsletterData where
  email : String
  frequency : String
  source : String
  deriving DecidableEq, Repr

/-! ## JSON values and exceptions -/

/-- A value produced by `response.json()`. A number carries the string
JavaScript prints for it, so zero (of either sign) is the number `"0"`. -/
inductive Json where
  | null
  | bool (b : Bool)
  | num (text : String)
  | str (s : String)
  | arr (items : List Json)
  | obj (props : List (String × Json))

/-- JavaScript truthiness of a JSON value: `null`, `false`, zero and the
empty string are falsy. -/
def Json.truthy : Json → Bool
  | .null => false
  | .bool b => b
  | .num text => text != "0"
  | .str s => strTruthy s
  | .arr _ => true
  | .obj _ => true

/-- Truthiness of a value that may be `undefined`. -/
def valTruthy : Option Json → Bool
  | none => false
  | some j => j.truthy

/-- Own property of an object, by name; the first pair of that name. -/
def lookupProp (name : String) : List (String × Json) → Option Json
  | [] => none
  | (k, v) :: rest => if k = name then some v else lookupProp name rest

/-- The value of `v.name` for a value `v` that is not `null`, for the property
names this program reads (`errors`, `message`, `success`, `data`,
`registrationNumber`, `field`): the own property of an object, `undefined` on
an array and on a primitive. -/
def Json.prop (j : Json) (name : String) : Option Json :=
  match j with
  | .obj props => lookupProp name props
  | _ => none

/-- A thrown exception object: its `message`, and the `status` and `details`
that `makeRequest` adds (lines 35-37); both are `undefined` on any other
exception. -/
structure JsError where
  message : String
  status : Option Nat
  details : Option Json

/-- The `TypeError` of a property read on `null` or `undefined`. -/
def typeErrorRead (of name : String) : JsError :=
  { message := "Cannot read properties of " ++ of ++ " (reading '" ++ name ++ "')"
    status := none
    details := none }

/-- The `TypeError` of a string conversion that finds no usable `toString`. -/
def typeErrorPrimitive : JsError :=
  { message := "Cannot convert object to primitive value", status := none, details := none }

/-- The `TypeError` of a call of something that is not a function. -/
def typeErrorCall (what : String) : JsError :=
  { message := what ++ " is not a function", status := none, details := none }

mutual
/-- String conversion of a JSON value, as done by a template literal, by the
`Error` constructor and by the `textContent` setter. An object converts to
`[object Object]` through the inherited `toString`; an object with an own
`toString` property, which after `JSON.parse` is never a function, hides it,
and the conversion throws a `TypeError`. -/
def Json.toStr : Json → Except JsError String
  | .null => .ok "null"
  | .bool true => .ok "true"
  | .bool false => .ok "false"
  | .num text => .ok text
  | .str s => .ok s
  | .arr items => Json.join items
  | .obj props =>
    match lookupProp "toString" props with
    | some _ => .error typeErrorPrimitive
    | none => .ok "[object Object]"
/-- String conversion of an array: the converted elements separated by
commas, a `null` element giving the empty string; it throws when the
conversion of an element does. -/
def Json.join : List Json → Except JsError String
  | [] => .ok ""
  | [.null] => .ok ""
  | [x] => Json.toStr x
  | .null :: rest =>
    match Json.join rest with
    | .ok tail => .ok ("," ++ tail)
    | .error e => .error e
  | x :: rest =>
    match Json.toStr x with
    | .error e => .error e
    | .ok head =>
      match Json.join rest with
      | .ok tail => .ok (head ++ "," ++ tail)
      | .error e => .error e
end

/-- String conversion of a value that may be `undefined`. -/
def jsString : Option Json → Except JsError String
  | none => .ok "undefined"
  | some j => j.toStr

/-- The string an element shows after `el.textContent = v`: `null` and
`undefined` give the empty string, any other value its string conversion. -/
def textContentOf : Option Json → Except JsError String
  | none => .ok ""
  | some .null => .ok ""
  | some j => j.toStr

/-- The expression `v.name`: throws a `TypeError` when `v` is `null`. -/
def Json.getProp (j : Json) (name : String) : Except JsError (Option Json) :=
  match j with
  | .null => .error (typeErrorRead "null" name)
  | _ => .ok (j.prop name)

/-- The expression `v.name` for a value that may be `undefined`. -/
def valGetProp (v : Option Json) (name : String) : Except JsError (Option Json) :=
  match v with
  | none => .error (typeErrorRead "undefined" name)
  | some j => j.getProp name

/-! ## Request executor (lines 19-48) -/

/-- What `fetch` and `response.json()` deliver: the `fetch` promise rejects
(network failure), or there is a response with a status whose body either
parses to a JSON value or makes `response.json()` reject. -/
inductive FetchOutcome where
  | rejected (message : String)
  | response (status : Nat) (body : Except String Json)

/-- The flag `response.ok`: the status is in the range 200-299. -/
def responseOk (status : Nat) : Bool :=
  decide (200 ≤ status) && decide (status ≤ 299)

/-- The message of the exception built at line 35: the string form of
`result.message || "Request failed"`. Converting a truthy `message` can
throw. -/
def failureMessage (result : Json) : Except JsError String :=
  if valTruthy (result.prop "message") then jsString (result.prop "message")
  else .ok "Request failed"

/-- The method `makeRequest`, from the outcome of its `fetch`: the parsed body
is returned, or an exception is thrown. For a response outside 200-299 that is
the exception of lines 35-37, with the status and the body attached, unless
line 33 or line 35 throws first. The `catch` of lines 42-47 logs and rethrows
the same exception. -/
def makeRequest (outcome : FetchOutcome) : Except JsError Json :=
  match outcome with
  | .rejected message => .error { message := message, status := none, details := none }
  | .response _ (.error message) =>
    .error { message := message, status := none, details := none }
  | .response status (.ok result) =>
    if !responseOk status then
      -- line 33, console.error("Validation Errors:", result.errors)
      match result.getProp "errors" with
      | .error e => .error e
      | .ok _ =>
        match failureMessage result with
        | .error e => .error e
        | .ok message =>
          .error { message := message, status := some status, details := some result }
    else
      .ok result

/-! ## Document and form -/

/-- An element of class `api-message` that is not inside another one: its
class name, the markup assigned to its `innerHTML`, and the number `nested` of
elements of class `api-message` among its descendants. -/
structure Toast where
  className : String
  innerHTML : String
  nested : Nat
  deriving DecidableEq, Repr

/-- An element of a form, with the attributes and properties the program
reads or writes. `isControl` says that it matches `input, textarea, select`,
`isSubmitButton` that it matches `button[type="submit"]`, `isCheckbox` that
its `type` is `checkbox`, `isListed` that its `name` and `id` are property
names of the form (a button, fieldset, input other than an image button,
object, output, select, textarea or img); `parentNode` identifies its parent
and `formCheck` the element `closest('.form-check')` finds, if any;
`originalText` is `dataset.originalText`; `value` is the state `form.reset()`
puts back to `defaultValue`. -/
structure Elem where
  name : Option String
  id : Option String
  isControl : Bool
  isSubmitButton : Bool
  isCheckbox : Bool
  isListed : Bool
  parentNode : Nat
  formCheck : Option Nat
  textContent : String
  disabled : Bool
  opacity : String
  borderColor : String
  originalText : Option String
  value : String
  defaultValue : String
  deriving DecidableEq, Repr

/-- An element of class `field-error` inside a form: the node it is a child of,
its class name and its text. -/
structure FieldError where
  container : Nat
  className : String
  textContent : String
  deriving DecidableEq, Repr

/-- A form: its elements in document order and its `field-error` elements in
document order of creation. -/
structure Form where
  elems : List Elem
  fieldErrors : List FieldError
  deriving DecidableEq, Repr

/-- The part of the page a submit handler works on: the toasts of the document
and the handler's form. -/
structure Page where
  toasts : List Toast
  form : Form
  deriving DecidableEq, Repr

/-- What the model leaves to the browser. `parses name` says whether the
selector `[name="…"]` built at line 128 from a name parses, and `find` gives
the first element of the form it matches, for the names whose selector the
model does not resolve itself; `toastsIn message` is the number of elements of
class `api-message` that the HTML parser builds from a message, for the
messages the model does not scan itself. -/
structure Browser where
  parses : String → Bool
  find : String → Form → Option (Nat × Elem)
  toastsIn : String → Nat

/-- First element satisfying a test, with its position. -/
def firstMatch (p : Elem → Bool) : List Elem → Option (Nat × Elem)
  | [] => none
  | e :: es =>
    if p e then some (0, e)
    else
      match firstMatch p es with
      | some (i, x) => some (i + 1, x)
      | none => none

/-- Replace the element at a position. -/
def updateAt (i : Nat) (f : Elem → Elem) : List Elem → List Elem
  | [] => []
  | e :: es =>
    match i with
    | 0 => f e :: es
    | n + 1 => e :: updateAt n f es

/-- A string that stands for itself between the double quotes of a CSS
attribute selector: it has no double quote, backslash, line break, form feed
or null character. -/
def cssPlain (s : String) : Bool :=
  s.data.all fun c =>
    c != Char.ofNat 34 && c != Char.ofNat 92 && c != Char.ofNat 10 && c != Char.ofNat 13
      && c != Char.ofNat 12 && c != Char.ofNat 0

/-- What a CSS string that opens with a double quote makes of a name. -/
inductive NameKind where
  /-- The name has none of the characters `cssPlain` excludes: the string is
  the name. -/
  | plain
  /-- The first such character is a line feed, carriage return or form feed:
  the string breaks off there, and a selector holding it does not parse. -/
  | broken
  /-- The first such character is a double quote, a backslash or a null
  character: the string ends early, holds an escape or a replaced character;
  what the selector is then is left to `Browser`. -/
  | other
  deriving DecidableEq, Repr

/-- The kind of a name, from its first character that `cssPlain` excludes. -/
def nameKind : List Char → NameKind
  | [] => .plain
  | c :: rest =>
    if c = Char.ofNat 10 || c = Char.ofNat 13 || c = Char.ofNat 12 then .broken
    else if c = Char.ofNat 34 || c = Char.ofNat 92 || c = Char.ofNat 0 then .other
    else nameKind rest

/-- Whether the selector `[name="…"]` built from a name parses. -/
def selectorParses (browser : Browser) (name : String) : Bool :=
  match nameKind name.data with
  | .plain => true
  | .broken => false
  | .other => browser.parses name

/-- The `SyntaxError` of `querySelector` on a selector that does not parse. -/
def selectorError (selector : String) : JsError :=
  { message := "Failed to execute querySelector: " ++ selector ++ " is not a valid selector"
    status := none
    details := none }

/-- The call `form.querySelector('[name="' + name + '"]')` of line 128. For a
plain name it finds the first element whose `name` attribute is that string;
it throws when the selector does not parse. -/
def Form.queryName (browser : Browser) (form : Form) (name : String) :
    Except JsError (Option (Nat × Elem)) :=
  match nameKind name.data with
  | .plain => .ok (firstMatch (fun e => e.name == some name) form.elems)
  | .broken => .error (selectorError ("[name=\"" ++ name ++ "\"]"))
  | .other =>
    if browser.parses name then .ok (browser.find name form)
    else .error (selectorError ("[name=\"" ++ name ++ "\"]"))

/-- The call `form.querySelector('#terms')` of line 132. -/
def Form.queryTerms (form : Form) : Option (Nat × Elem) :=
  firstMatch (fun e => e.id == some "terms") form.elems

/-- The call `form.querySelector('button[type="submit"]')`. -/
def Form.submitButton (form : Form) : Option (Nat × Elem) :=
  firstMatch (fun e => e.isSubmitButton) form.elems

/-- The property `form.reset` is not the method: a listed element of the form
has `reset` as its `name` or `id`, and the form returns that element. -/
def Form.resetShadowed (form : Form) : Bool :=
  form.elems.any fun e => e.isListed && (e.name == some "reset" || e.id == some "reset")

/-- The effect of the method `reset` of a form: every element is put back to
its default. -/
def Form.reset (form : Form) : Form :=
  { form with elems := form.elems.map fun e => { e with value := e.defaultValue } }

/-! ## Toast presentation (lines 50-86) -/

/-- The suffix of the class name chosen at line 58. -/
def alertKind (type : String) : String :=
  if type = "success" then "success" else if type = "error" then "danger" else "warning"

/-- The markup assigned to `messageDiv.innerHTML` (lines 71-76): the message
is put between the `span` tags as it is. -/
def toastMarkup (message : String) : String :=
  "\n            <div style=\"display: flex; align-items: center; justify-content: space-between;\">\n                <span>"
    ++ message
    ++ "</span>\n                <button type=\"button\" onclick=\"this.parentElement.parentElement.remove()\" style=\"background: none; border: none; font-size: 18px; cursor: pointer; margin-left: 10px;\">&times;</button>\n            </div>\n        "

/-- The rest of the input after a given start, if the input starts with it. -/
def dropLeading : List Char → List Char → Option (List Char)
  | [], cs => some cs
  | _ :: _, [] => none
  | p :: ps, c :: cs => if p = c then dropLeading ps cs else none

/-- A class attribute value up to its closing double quote, and the input
after the quote; only lower-case letters, digits, hyphens and spaces are read
as a value. -/
def readClass : List Char → Option (List Char × List Char)
  | [] => none
  | c :: rest =>
    if c = Char.ofNat 34 then some ([], rest)
    else if c.isLower || c.isDigit || c = '-' || c = Char.ofNat 32 then
      match readClass rest with
      | some (value, after) => some (c :: value, after)
      | none => none
    else none

/-- The class names of a class attribute value: its parts between spaces. -/
def classTokens : List Char → List (List Char)
  | [] => [[]]
  | c :: rest =>
    match classTokens rest with
    | [] => [[c]]
    | token :: more =>
      if c = Char.ofNat 32 then [] :: token :: more else (c :: token) :: more

/-- The number of elements of class `api-message` that the HTML parser builds
from a message between the `span` tags of `toastMarkup`, for a message made of
text without `<` and of properly nested elements written
`<div class="…">…</div>`: text builds no element, and each `div` builds one,
of the classes its attribute names. On any other message the result is `none`.
`depth` counts the `div` elements that are open, `count` the elements of class
`api-message` found so far. -/
def scanMessage : Nat → Nat → Nat → List Char → Option Nat
  | 0, _, _, _ => none
  | fuel + 1, depth, count, cs =>
    match cs with
    | [] => if depth = 0 then some count else none
    | c :: rest =>
      if c ≠ '<' then scanMessage fuel depth count rest
      else
        match dropLeading "</div>".data (c :: rest) with
        | some after =>
          match depth with
          | 0 => none
          | d + 1 => scanMessage fuel d count after
        | none =>
          match dropLeading "<div class=\"".data (c :: rest) with
          | none => none
          | some after =>
            match readClass after with
            | some (value, '>' :: more) =>
              scanMessage fuel (depth + 1)
                (count + if "api-message".data ∈ classTokens value then 1 else 0) more
            | _ => none

/-- The number of elements of class `api-message` that the HTML parser builds
from a message inside a toast: what `scanMessage` finds, or what the browser
says where `scanMessage` does not read the message. -/
def messageToasts (browser : Browser) (message : String) : Nat :=
  match scanMessage (message.length + 1) 0 0 message.data with
  | some n => n
  | none => browser.toastsIn message

/-- The element `messageDiv` built at lines 56-76. -/
def newToast (browser : Browser) (message type : String) : Toast :=
  { className := "api-message alert alert-" ++ alertKind type
    innerHTML := toastMarkup message
    nested := messageToasts browser message }

/-- The method `showMessage`: every element of class `api-message` is removed
from the document and the new one is appended to the body. The timer of lines
81-85 runs five seconds later and is not part of the call. -/
def showMessage (browser : Browser) (p : Page) (message type : String) : Page :=
  { p with toasts := (p.toasts.filter fun _ => false) ++ [newToast browser message type] }

/-- The number of elements `document.querySelectorAll(".api-message")` finds:
the toasts and the elements of that class nested in them. -/
def Page.apiMessageCount (p : Page) : Nat :=
  (p.toasts.map fun t => 1 + t.nested).sum

/-- The calls `showMessage(c.1, c.2)` for the elements of a list, in order. -/
def showAll (browser : Browser) (p : Page) (calls : List (String × String)) : Page :=
  calls.foldl (fun q c => showMessage browser q c.1 c.2) p

/-! ## Loading-state guard (lines 88-99) -/

/-- The method `setLoading` on a button element. -/
def setLoading (button : Elem) (isLoading : Bool) : Elem :=
  if isLoading then
    { button with
      originalText := some button.textContent
      textContent := "Processing..."
      disabled := true
      opacity := "0.7" }
  else
    { button with
      textContent :=
        match button.originalText with
        | some t => if strTruthy t then t else button.textContent
        | none => button.textContent
      disabled := false
      opacity := "1" }

/-- The call `setLoading` on the element a handler holds as `submitButton`. -/
def setLoadingAt (p : Page) (button : Nat) (isLoading : Bool) : Page :=
  { p with form := { p.form with elems := updateAt button (setLoading · isLoading) p.form.elems } }

/-! ## Validation errors (lines 101-156) -/

/-- An element of `errorList`: an element of the `errors` array (line 117), or
an object built from a key of the `errors` object (lines 120-123). -/
inductive ErrorItem where
  | item (j : Json)
  | built (field : String) (message : Option Json)

/-- The list `errorList` of lines 114-124, for a truthy `errors`. -/
def errorList (errors : Json) : List ErrorItem :=
  match errors with
  | .arr items => items.map .item
  | .obj props =>
    props.map fun kv =>
      .built kv.1
        (match lookupProp kv.1 props with
         | some (.arr values) => values.head?
         | other => other)
  | _ => []

/-- The expression `error.field` of line 128. -/
def ErrorItem.field : ErrorItem → Except JsError (Option Json)
  | .item j => j.getProp "field"
  | .built field _ => .ok (some (.str field))

/-- The expression `error.message` of lines 138 and 152, which run after
`error.field` has been read. -/
def ErrorItem.message : ErrorItem → Option Json
  | .item j => j.prop "message"
  | .built _ message => message

/-- The test `error.field === 'terms'`. -/
def isTerms : Option Json → Bool
  | some (.str s) => s == "terms"
  | _ => false

/-- Lines 140-148: the error element, with its text set, is appended, and a
field that is not a checkbox is highlighted. -/
def attachError (p : Page) (i : Nat) (field : Elem) (text : String) : Page :=
  let errorDiv (container : Nat) : FieldError :=
    { container := container
      className := "field-error text-danger small mt-1"
      textContent := text }
  if field.isCheckbox then
    { p with form := { p.form with
        fieldErrors := p.form.fieldErrors ++ [errorDiv (field.formCheck.getD field.parentNode)] } }
  else
    { p with form :=
        { elems := updateAt i (fun e => { e with borderColor := "#dc3545" }) p.form.elems
          fieldErrors := p.form.fieldErrors ++ [errorDiv field.parentNode] } }

/-- The body of the loop of lines 126-154 for one element of `errorList`. It
throws before it changes anything (reading `error.field` of `null`, converting
the field or the message to a string, or on a selector that does not parse),
or returns the page it leaves. -/
def displayOne (browser : Browser) (p : Page) (error : ErrorItem) : Except JsError Page :=
  match error.field with
  | .error e => .error e
  | .ok field =>
    match jsString field with
    | .error e => .error e
    | .ok name =>
      match p.form.queryName browser name with
      | .error e => .error e
      | .ok found =>
        match (if found.isNone && isTerms field then p.form.queryTerms else found) with
        | some (i, el) =>
          match textContentOf error.message with
          | .error e => .error e
          | .ok text => .ok (attachError p i el text)
        | none =>
          match jsString error.message with
          | .error e => .error e
          | .ok text => .ok (showMessage browser p (name ++ ": " ++ text) "error")

/-- A page left by a piece of code, and the exception it threw, if any. -/
structure Run where
  page : Page
  escaped : Option JsError

/-- The loop `errorList.forEach(...)` of lines 126-154. -/
def displayAll (browser : Browser) (p : Page) : List ErrorItem → Run
  | [] => { page := p, escaped := none }
  | error :: rest =>
    match displayOne browser p error with
    | .ok q => displayAll browser q rest
    | .error e => { page := p, escaped := some e }

/-- Line 108 on one element: the border colour of an `input, textarea, select`
is cleared, any other element is left as it is. -/
def clearBorder (e : Elem) : Elem :=
  if e.isControl then { e with borderColor := "" } else e

/-- Lines 103-108: the `field-error` elements of the form are removed and the
border colour of every `input, textarea, select` is cleared. -/
def clearErrors (p : Page) : Page :=
  { p with form :=
      { elems := p.form.elems.map clearBorder
        fieldErrors := p.form.fieldErrors.filter fun _ => false } }

/-- The method `displayValidationErrors`. -/
def displayValidationErrors (browser : Browser) (p : Page) (errors : Option Json) : Run :=
  let cleared := clearErrors p
  match errors with
  | some e =>
    if e.truthy then displayAll browser cleared (errorList e)
    else { page := cleared, escaped := none }
  | none => { page := cleared, escaped := none }

/-! ## Submit handlers (lines 165-229, 239-326, 336-387) -/

/-- The three kinds of form the program binds a submit handler to. -/
inductive FormKind where
  | contact
  | registration
  | newsletter
  deriving DecidableEq, Repr

/-- The body of a request, before `JSON.stringify`. -/
inductive Payload where
  | contact (data : ContactData)
  | registration (data : RegistrationData)
  | newsletter (data : NewsletterData)
  deriving DecidableEq, Repr

/-- The arguments of a `makeRequest` call. -/
structure Request where
  endpoint : String
  method : String
  body : Payload
  deriving DecidableEq, Repr

/-- What a handler reads from its form at submit time: the entries of
`new FormData(form)` and the values of the checked `interests` checkboxes. -/
structure FormInput where
  formData : FormData
  interests : List String

/-- The value of `error.details && error.details.errors` (lines 207, 302). -/
def detailsErrors (error : JsError) : Option Json :=
  match error.details with
  | some d => if d.truthy then d.prop "errors" else some d
  | none => none

/-- The success message of each handler (lines 197-200, 292-295, 364-367).
For a registration the number is `result.data.registrationNumber`: reading it
throws when `result.data` is `null` or `undefined`, and so does putting it
into the message when it has no string form. -/
def successText (kind : FormKind) (result : Json) : Except JsError String :=
  match kind with
  | .contact =>
    .ok "Thank you! Your message has been sent successfully. We'll get back to you soon."
  | .registration =>
    match valGetProp (result.prop "data") "registrationNumber" with
    | .error e => .error e
    | .ok number =>
      match jsString number with
      | .error e => .error e
      | .ok text =>
        .ok ("Registration successful! Your registration number is " ++ text
          ++ ". Check your email for confirmation.")
  | .newsletter => .ok "Successfully subscribed to our newsletter!"

/-- The success branch of a handler (lines 197-201, 292-296, 364-368): the
success toast is shown and `form.reset()` is called, which resets the form, or
throws when `reset` is shadowed. -/
def successFeedback (browser : Browser) (p : Page) (text : String) : Run :=
  let shown := showMessage browser p text "success"
  if shown.form.resetShadowed then
    { page := shown, escaped := some (typeErrorCall "form.reset") }
  else
    { page := { shown with form := shown.form.reset }, escaped := none }

/-- The part of a `try` block after `await this.makeRequest(...)`: lines
191-202, 286-297, 358-369, with the exception it throws, if any. -/
def afterRequest (browser : Browser) (kind : FormKind) (p : Page) (outcome : FetchOutcome) :
    Run :=
  match makeRequest outcome with
  | .error e => { page := p, escaped := some e }
  | .ok result =>
    match result.getProp "success" with
    | .error e => { page := p, escaped := some e }
    | .ok success =>
      if valTruthy success then
        match successText kind result with
        | .error e => { page := p, escaped := some e }
        | .ok text => successFeedback browser p text
      else
        { page := p, escaped := none }

/-- The message and type of the toast chosen by the `else if` chains of the
`catch` blocks, from `error.message` (lines 213-225, 305-322, 371-383). -/
def failureToast (kind : FormKind) (message : String) : String × String :=
  match kind with
  | .contact =>
    if includes message "Validation failed" then
      ("Please check your form and try again.", "error")
    else if includes message "Too many" then
      ("Too many submissions. Please try again in 15 minutes.", "warning")
    else
      ("Something went wrong. Please try again later.", "error")
  | .registration =>
    if includes message "already registered" then
      ("You are already registered for this event! Check your email for your registration details.",
        "warning")
    else if includes message "Validation failed" then
      ("Please check your form and try again.", "error")
    else if includes message "Too many" then
      ("Too many registration attempts. Please try again in 1 hour.", "warning")
    else
      ("Registration failed. Please try again later.", "error")
  | .newsletter =>
    if includes message "already subscribed" then
      ("You are already subscribed to our newsletter!", "warning")
    else if includes message "Too many" then
      ("Too many subscription attempts. Please try again later.", "warning")
    else
      ("Subscription failed. Please try again.", "error")

/-- The `catch` block of a handler (lines 203-225, 298-322, 370-383). The
contact and registration handlers first look for `error.details.errors`; the
newsletter handler does not. An exception thrown inside the block escapes. -/
def catchBlock (browser : Browser) (kind : FormKind) (p : Page) (error : JsError) : Run :=
  let byMessage : Run :=
    { page := showMessage browser p (failureToast kind error.message).1
        (failureToast kind error.message).2
      escaped := none }
  match kind with
  | .newsletter => byMessage
  | _ =>
    if valTruthy (detailsErrors error) then
      let shown := displayValidationErrors browser p (detailsErrors error)
      match shown.escaped with
      | some e => { page := shown.page, escaped := some e }
      | none =>
        { page := showMessage browser shown.page "Please fix the errors below and try again."
            "error"
          escaped := none }
    else
      byMessage

/-- The `finally` block: `this.setLoading(submitButton, false)`. -/
def finallyBlock (button : Nat) (r : Run) : Run :=
  { page := setLoadingAt r.page button false, escaped := r.escaped }

/-- The `catch` block, entered when the `try` block threw, and the `finally`
block after it. -/
def catchFinally (browser : Browser) (kind : FormKind) (button : Nat) (tried : Run) : Run :=
  finallyBlock button
    (match tried.escaped with
     | none => tried
     | some e => catchBlock browser kind tried.page e)

/-- A handler from the point where its request completes: the rest of the
`try` block, the `catch` block if something was thrown, and the `finally`
block. `button` is the element held in `submitButton`. -/
def submitResume (browser : Browser) (kind : FormKind) (p : Page) (button : Nat)
    (outcome : FetchOutcome) : Run :=
  catchFinally browser kind button (afterRequest browser kind p outcome)

/-- The request a handler sends, if it sends one: lines 172-194, 248-289,
343-361. The newsletter handler throws `Email is required` instead when the
form has no email. -/
def buildRequest (kind : FormKind) (input : FormInput) : Except JsError Request :=
  match kind with
  | .contact =>
    .ok { endpoint := "/api/contact", method := "POST",
          body := .contact (contactData input.formData) }
  | .registration =>
    .ok { endpoint := "/api/register", method := "POST",
          body := .registration (registrationData input.formData input.interests) }
  | .newsletter =>
    match input.formData.get "email" with
    | some email =>
      if strTruthy email then
        .ok { endpoint := "/api/newsletter", method := "POST",
              body := .newsletter { email := email, frequency := "weekly", source := "website" } }
      else
        .error { message := "Email is required", status := none, details := none }
    | none => .error { message := "Email is required", status := none, details := none }

/-- How far a handler gets at the submit event. -/
inductive Started where
  /-- The form has no submit button: `setLoading(null, true)` throws before
  the `try` block and nothing else happens. -/
  | threw (error : JsError)
  /-- The handler ran to its end without sending a request. -/
  | finished (run : Run)
  /-- The handler awaits its request, holding `button` as `submitButton`. -/
  | pending (page : Page) (button : Nat) (request : Request)

/-- A handler from the submit event to the `await` of its request. -/
def submitStart (browser : Browser) (kind : FormKind) (p : Page) (input : FormInput) : Started :=
  match p.form.submitButton with
  | none => .threw (typeErrorRead "null" "dataset")
  | some (button, _) =>
    let loading := setLoadingAt p button true
    match buildRequest kind input with
    | .ok request => .pending loading button request
    | .error e =>
      .finished (catchFinally browser kind button { page := loading, escaped := some e })

/-- A whole run of a handler: the submit event on page `p`, and the outcome of
the request if one is sent. -/
def submitHandler (browser : Browser) (kind : FormKind) (p : Page) (input : FormInput)
    (outcome : FetchOutcome) : Run :=
  match submitStart browser kind p input with
  | .threw e => { page := p, escaped := some e }
  | .finished run => run
  | .pending loading button _ => submitResume browser kind loading button outcome

/-! ## Submissions in flight -/

/-- A form between events: its page and, for every request in flight, the
button its handler holds. -/
structure Session where
  page : Page
  inFlight : List Nat

/-- An event on a form: a submit event, or the completion of the request at a
position of `inFlight`. -/
inductive Event where
  | submit (input : FormInput)
  | complete (position : Nat) (outcome : FetchOutcome)

/-- The effect of one event. -/
def Session.step (browser : Browser) (kind : FormKind) (s : Session) : Event → Session
  | .submit input =>
    match submitStart browser kind s.page input with
    | .threw _ => s
    | .finished run => { s with page := run.page }
    | .pending page button _ => { page := page, inFlight := s.inFlight ++ [button] }
  | .complete position outcome =>
    match s.inFlight[position]? with
    | none => s
    | some button =>
      { page := (submitResume browser kind s.page button outcome).page
        inFlight := s.inFlight.eraseIdx position }

/-- The effect of a sequence of events. -/
def Session.run (browser : Browser) (kind : FormKind) (s : Session) (events : List Event) :
    Session :=
  events.foldl (Session.step browser kind) s

/-- The submit button of the form is enabled. -/
def Session.buttonEnabled (s : Session) : Bool :=
  match s.page.form.submitButton with
  | some (_, b) => !b.disabled
  | none => false

/-- Every submit event of the sequence arrives while the submit button is
enabled. -/
def Session.submitsWhileEnabled (browser : Browser) (kind : FormKind) (s : Session) :
    List Event → Bool
  | [] => true
  | .submit input :: rest =>
    s.buttonEnabled
      && Session.submitsWhileEnabled browser kind (s.step browser kind (.submit input)) rest
  | .complete position outcome :: rest =>
    Session.submitsWhileEnabled browser kind (s.step browser kind (.complete position outcome))
      rest

/-- For every element of a form, in order, whether it is a submit button. -/
def submitFlags (p : Page) : List Bool :=
  p.form.elems.map fun e => e.isSubmitButton

/-- A form is in its reset state: every element has its default. -/
def Form.isReset (form : Form) : Bool :=
  form.elems.all fun e => e.value == e.defaultValue

/-- An element of `errorList` that the loop of lines 126-154 handles without
throwing: it is not `null`, so that reading its `field` does not throw; its
field and its message have a string form; and the selector built from the
field parses. -/
def ErrorItem.wellFormed (browser : Browser) (error : ErrorItem) : Bool :=
  match error.field with
  | .error _ => false
  | .ok field =>
    match jsString field with
    | .error _ => false
    | .ok name =>
      selectorParses browser name
        && (match jsString error.message with
            | .ok _ => true
            | .error _ => false)

/-- Every element of the `errorList` of an `errors` value is well formed. -/
def entriesWellFormed (browser : Browser) (errors : Option Json) : Bool :=
  match errors with
  | some e => (errorList e).all (ErrorItem.wellFormed browser)
  | none => true

/-! ## Sample pages -/

/-- A browser for the examples below. Their field names are plain and their
messages are ones `scanMessage` reads, so none of its answers is asked for. -/
def sampleBrowser : Browser :=
  { parses := fun _ => false, find := fun _ _ => none, toastsIn := fun _ => 0 }

/-- A text input with a name and a current value, empty by default. -/
def textInput (name value : String) (parent : Nat) : Elem :=
  { name := some name, id := none, isControl := true, isSubmitButton := false,
    isCheckbox := false, isListed := true, parentNode := parent, formCheck := none,
    textContent := "", disabled := false, opacity := "", borderColor := "",
    originalText := none, value := value, defaultValue := "" }

/-- A `button` of type `submit` with a label. -/
def submitButtonElem (label : String) (parent : Nat) : Elem :=
  { name := none, id := none, isControl := false, isSubmitButton := true,
    isCheckbox := false, isListed := true, parentNode := parent, formCheck := none,
    textContent := label, disabled := false, opacity := "", borderColor := "",
    originalText := none, value := "", defaultValue := "" }

/-- A page without toasts whose form has a `name` input, an `email` input and a
submit button, both inputs filled in. -/
def samplePage : Page :=
  { toasts := []
    form :=
      { elems := [textInput "name" "Ada" 1, textInput "email" "ada@example.org" 2,
          submitButtonElem "Send" 3]
        fieldErrors := [] } }

/-- What the handlers read from the form of `samplePage`. -/
def sampleInput : FormInput :=
  { formData := [("name", "Ada"), ("email", "ada@example.org")], interests := [] }

/-- The form of `samplePage` with one more input, named `reset`. -/
def resetNamedPage : Page :=
  { toasts := []
    form :=
      { elems := [textInput "name" "Ada" 1, textInput "email" "ada@example.org" 2,
          textInput "reset" "" 4, submitButtonElem "Send" 3]
        fieldErrors := [] } }

/-- The form of `samplePage` without its submit button. -/
def buttonlessPage : Page :=
  { toasts := []
    form :=
      { elems := [textInput "name" "Ada" 1, textInput "email" "ada@example.org" 2]
        fieldErrors := [] } }

/-- A page without toasts whose registration form names its inputs
`first_name` and `email`, as line 268 allows, and has a submit button. -/
def registrationPage : Page :=
  { toasts := []
    form :=
      { elems := [textInput "first_name" "" 1, textInput "email" "ada@example.org" 2,
          submitButtonElem "Register" 3]
        fieldErrors := [] } }

/-- What the handlers read from the form of `registrationPage`. -/
def registrationInput : FormInput :=
  { formData := [("first_name", ""), ("email", "ada@example.org")], interests := [] }

/-- A validation failure of the server: status 400 with one field error, for
the field `firstName`; neither `samplePage` nor `registrationPage` has an
element of that name. -/
def unmatchedFieldFailure : FetchOutcome :=
  .response 400 (.ok (.obj
    [("message", .str "Validation failed"),
     ("errors", .arr [.obj [("field", .str "firstName"),
        ("message", .str "First name is required")]])]))

/-- A response of status 400 whose `errors` array holds the given entry. -/
def failureWithEntry (entry : Json) : FetchOutcome :=
  .response 400 (.ok (.obj [("errors", .arr [entry])]))

/-- A page whose form has an `email` input, a `name` input that an earlier
validation failure has highlighted, with its error element, and a submit
button. -/
def highlightedPage : Page :=
  { toasts := []
    form :=
      { elems := [textInput "email" "ada" 1,
          { (textInput "name" "" 2) with borderColor := "#dc3545" },
          submitButtonElem "Send" 3]
        fieldErrors :=
          [{ container := 2
             className := "field-error text-danger small mt-1"
             textContent := "Name is required" }] } }

/-! ## Properties -/

/-- The rule of lines 175-178 on a phone value that is present agrees with the
reference of the specification. -/
theorem phone_rule_eq_reference (phone : String) :
    (if strTruthy phone && !startsWithPlus phone then
      some ("+234" ++ replaceLeadingZero phone) else some phone)
      = phoneReference (some phone) := by
  obtain ⟨cs⟩ := phone
  unfold phoneReference strTruthy startsWithPlus replaceLeadingZero
  match cs with
  | [] => simp
  | c :: rest =>
    by_cases hp : c = '+'
    · subst hp; simp
    · by_cases hz : c = '0'
      · subst hz
        simp
        apply String.ext
        simp
      · simp [hp, hz]
        apply String.ext
        simp

/-- C1: the phone of the contact payload and the phone of the registration
payload both equal the reference applied to the raw `phone` value of the form
(absent and empty values and values starting with `+` pass through, any other
value gets `+234` in front after losing one leading `0`), so the two builders
agree; `08012345678` becomes `+2348012345678`, `+2348012345678` is unchanged
and `0080` keeps its second zero. -/
theorem phone_normalisation_matches_reference (fd : FormData) :
    (contactData fd).phone = phoneReference (fd.get "phone")
      ∧ (∀ interests, (registrationData fd interests).phone = phoneReference (fd.get "phone"))
      ∧ (∀ interests, (contactData fd).phone = (registrationData fd interests).phone)
      ∧ phoneReference none = none
      ∧ phoneReference (some "") = some ""
      ∧ phoneReference (some "08012345678") = some "+2348012345678"
      ∧ phoneReference (some "+2348012345678") = some "+2348012345678"
      ∧ phoneReference (some "0080") = some "+234080" := by
  have hc : contactPhone fd = phoneReference (fd.get "phone") := by
    unfold contactPhone
    cases h : fd.get "phone" with
    | none => rfl
    | some phone => exact phone_rule_eq_reference phone
  have hr : registrationPhone fd = phoneReference (fd.get "phone") := by
    unfold registrationPhone
    cases h : fd.get "phone" with
    | none => rfl
    | some phone => exact phone_rule_eq_reference phone
  refine ⟨hc, fun _ => hr, fun _ => ?_, rfl, rfl, ?_, ?_, ?_⟩
  · show contactPhone fd = registrationPhone fd
    rw [hc, hr]
  · decide
  · decide
  · decide

/-- C2: on a registration form whose `newsletter` checkbox carries the value
`1`, a recognised truthy encoding, the payload has `newsletter` false, while
the same value in `terms` gives `terms` true. -/
theorem newsletter_flag_misses_one :
    truthyEncoding (some "1") = true
      ∧ (registrationData [("newsletter", "1"), ("terms", "1")] []).newsletter = false
      ∧ (registrationData [("newsletter", "1"), ("terms", "1")] []).terms = true := by
  decide

/-- The `terms` flag of the registration payload is true exactly on the
recognised truthy encodings of the raw `terms` value. -/
theorem terms_flag_iff_truthy_encoding (fd : FormData) (interests : List String) :
    (registrationData fd interests).terms = truthyEncoding (fd.get "terms") := by
  rfl

/-- C3: a button whose label is empty does not get its label back: after
`setLoading(button, true)` and `setLoading(button, false)` the label is the
busy indicator, not the empty label it had. -/
theorem setLoading_empty_label_not_restored (button : Elem) :
    (setLoading (setLoading { button with textContent := "" } true) false).textContent
      = "Processing..." := by
  simp [setLoading, strTruthy]

/-- While loading, the button is disabled and shows the busy indicator; after
the second call it is enabled, and a label that is not empty is restored. -/
theorem setLoading_round_trip (button : Elem) :
    (setLoading button true).disabled = true
      ∧ (setLoading button true).textContent = "Processing..."
      ∧ (setLoading (setLoading button true) false).disabled = false
      ∧ (button.textContent ≠ "" →
          (setLoading (setLoading button true) false).textContent = button.textContent) := by
  refine ⟨by simp [setLoading], by simp [setLoading], by simp [setLoading], ?_⟩
  intro h
  have : button.textContent.data ≠ [] := fun hd => h (String.ext hd)
  simp [setLoading, strTruthy, this]

/-- C6, as stated, fails: a response of status 500 whose body is the JSON
value `null`, and a response of status 400 whose body has a `message` that
cannot be converted to a string, make `makeRequest` throw an exception that
carries neither the status nor the body. -/
theorem makeRequest_null_body_loses_status :
    (∃ e, makeRequest (.response 500 (.ok .null)) = .error e
      ∧ e.status = none ∧ e.details.isNone = true)
    ∧ (∃ e, makeRequest (.response 400 (.ok (.obj [("message", .obj [("toString", .num "1")])])))
        = .error e ∧ e.status = none ∧ e.details.isNone = true) := by
  exact ⟨⟨_, rfl, rfl, rfl⟩, ⟨_, rfl, rfl, rfl⟩⟩

/-- C6, amended: for a response with a status outside 200-299 whose parsed
body is not `null` and whose `message`, when truthy, has a string form,
`makeRequest` does not return a success but throws an exception that carries
the status, the body as `details` (so the `errors` of the body are available
when present), and as message the string form of the `message` of the body
when that is truthy, `Request failed` when it is not. -/
theorem makeRequest_failure_carries_status_and_body (status : Nat) (body : Json) (text : String)
    (hstatus : responseOk status = false) (hbody : body ≠ .null)
    (htext : failureMessage body = .ok text) :
    (∀ result, makeRequest (.response status (.ok body)) ≠ .ok result)
      ∧ makeRequest (.response status (.ok body))
          = .error { message := text, status := some status, details := some body }
      ∧ (∀ m, body.prop "message" = some m → m.truthy = true → m.toStr = .ok text)
      ∧ (∀ s, body.prop "message" = some (.str s) → s ≠ "" → text = s)
      ∧ (valTruthy (body.prop "message") = false → text = "Request failed")
      ∧ (∀ errors, body.prop "errors" = some errors →
          detailsErrors { message := text, status := some status, details := some body }
            = some errors) := by
  have hget : body.getProp "errors" = .ok (body.prop "errors") := by
    cases body <;> first | rfl | exact absurd rfl hbody
  have hmain : makeRequest (.response status (.ok body))
      = .error { message := text, status := some status, details := some body } := by
    simp only [makeRequest, hstatus, hget, htext, Bool.not_false, if_true]
  have hconv : ∀ m, body.prop "message" = some m → m.truthy = true → m.toStr = .ok text := by
    intro m hm ht
    simpa [failureMessage, hm, valTruthy, ht, jsString] using htext
  refine ⟨?_, hmain, hconv, ?_, ?_, ?_⟩
  · intro result h
    rw [hmain] at h
    cases h
  · intro s hs hne
    have hd : s.data ≠ [] := fun hd => hne (String.ext hd)
    have := hconv (.str s) hs (by simp [Json.truthy, strTruthy, hd])
    simpa [Json.toStr] using this.symm
  · intro hm
    simpa [failureMessage, hm] using htext.symm
  · intro errors he
    cases body <;> simp [Json.prop] at he
    simp [detailsErrors, Json.truthy, Json.prop, he]

/-- The amended C6 at a response of status 422 whose `message` is an array:
the exception carries the status, the body, and the array in string form. -/
theorem makeRequest_failure_carries_status_and_body_witness :
    responseOk 422 = false
      ∧ Json.obj [("message", .arr [.str "a", .null, .num "7"])] ≠ .null
      ∧ failureMessage (.obj [("message", .arr [.str "a", .null, .num "7"])]) = .ok "a,,7"
      ∧ makeRequest (.response 422 (.ok (.obj [("message", .arr [.str "a", .null, .num "7"])])))
          = .error
            { message := "a,,7"
              status := some 422
              details := some (.obj [("message", .arr [.str "a", .null, .num "7"])]) } :=
  ⟨by decide, by simp, rfl,
    (makeRequest_failure_carries_status_and_body 422
      (.obj [("message", .arr [.str "a", .null, .num "7"])]) "a,,7"
      (by decide) (by simp) rfl).2.1⟩

/-- A response with a status outside 200-299 and a parsed body is never
returned as a success, whatever the body. -/
theorem makeRequest_failure_never_success (status : Nat) (body result : Json)
    (hstatus : responseOk status = false) :
    makeRequest (.response status (.ok body)) ≠ .ok result := by
  intro h
  simp only [makeRequest, hstatus, Bool.not_false, if_true] at h
  cases hg : body.getProp "errors" with
  | error e => simp [hg] at h
  | ok v =>
    simp only [hg] at h
    cases hm : failureMessage body with
    | error e => simp [hm] at h
    | ok t => simp [hm] at h

/-! ### Toasts -/

/-- After `showMessage` the toasts of the document are the new toast alone. -/
theorem showMessage_toasts (browser : Browser) (p : Page) (message type : String) :
    (showMessage browser p message type).toasts = [newToast browser message type] := by
  simp [showMessage]

/-- The scan of text without `<` finds no element. -/
theorem scanMessage_text (cs : List Char) (fuel count : Nat) (hfuel : cs.length < fuel)
    (htext : '<' ∉ cs) : scanMessage fuel 0 count cs = some count := by
  induction cs generalizing fuel with
  | nil =>
    cases fuel with
    | zero => simp at hfuel
    | succ n => simp [scanMessage]
  | cons c rest ih =>
    cases fuel with
    | zero => simp at hfuel
    | succ n =>
      have hc : c ≠ '<' := fun h => htext (by simp [h])
      have hrest : '<' ∉ rest := fun h => htext (List.mem_cons_of_mem _ h)
      simp only [scanMessage, ne_eq, hc, not_false_eq_true, if_true]
      exact ih n (by simpa using hfuel) hrest

/-- A message without `<` builds no element inside its toast, in any
browser. -/
theorem messageToasts_text (browser : Browser) (message : String) (htext : '<' ∉ message.data) :
    messageToasts browser message = 0 := by
  obtain ⟨cs⟩ := message
  have h : scanMessage ((String.mk cs).length + 1) 0 0 (String.mk cs).data = some 0 :=
    scanMessage_text cs (cs.length + 1) 0 (Nat.lt_succ_self _) htext
  simp only [messageToasts, h]

/-- C8, as stated, fails: after `showMessage` with a message that carries an
element of class `api-message`, the document holds two elements of that class,
the new toast and the one built from the message. -/
theorem showMessage_markup_adds_toast_elements :
    (showMessage sampleBrowser samplePage "<div class=\"api-message\"></div>"
        "error").apiMessageCount = 2
      ∧ (newToast sampleBrowser "<div class=\"api-message\"></div>" "error").nested = 1 := by
  decide

/-- C8, amended: after `showMessage(message, type)` with a message from which
the HTML parser builds no element of class `api-message` (as is every message
without `<`), on any page, the document holds exactly one element of class
`api-message`, the new toast, whose class name starts with `api-message` and
whose markup carries the message; the toasts that were there before are gone
and the form is untouched; and after any further sequence of `showMessage`
calls with such messages there is still exactly one. -/
theorem showMessage_leaves_exactly_the_new_toast (browser : Browser) (p : Page)
    (message type : String) (calls : List (String × String))
    (hmessage : messageToasts browser message = 0)
    (hcalls : ∀ c ∈ calls, messageToasts browser c.1 = 0) :
    (showMessage browser p message type).toasts = [newToast browser message type]
      ∧ (showMessage browser p message type).apiMessageCount = 1
      ∧ (newToast browser message type).className = "api-message alert alert-" ++ alertKind type
      ∧ (newToast browser message type).innerHTML = toastMarkup message
      ∧ includes (toastMarkup message) ("<span>" ++ message ++ "</span>") = true
      ∧ (showMessage browser p message type).form = p.form
      ∧ (showAll browser (showMessage browser p message type) calls).toasts.length = 1
      ∧ (showAll browser (showMessage browser p message type) calls).apiMessageCount = 1
      ∧ (∀ text : String, '<' ∉ text.data → messageToasts browser text = 0) := by
  have hcount : ∀ (q : Page) (m t : String), messageToasts browser m = 0 →
      (showMessage browser q m t).apiMessageCount = 1 := by
    intro q m t hm
    simp [Page.apiMessageCount, showMessage, newToast, hm]
  have hall : ∀ (cs : List (String × String)) (q : Page) (m t : String),
      messageToasts browser m = 0 → (∀ c ∈ cs, messageToasts browser c.1 = 0) →
      (showAll browser (showMessage browser q m t) cs).toasts.length = 1
        ∧ (showAll browser (showMessage browser q m t) cs).apiMessageCount = 1 := by
    intro cs
    induction cs with
    | nil =>
      intro q m t hm _
      exact ⟨by simp [showAll, showMessage], hcount q m t hm⟩
    | cons c rest ih =>
      intro q m t _ hcs
      simp only [showAll, List.foldl_cons]
      exact ih (showMessage browser q m t) c.1 c.2 (hcs c (List.mem_cons_self _ _))
        (fun x hx => hcs x (List.mem_cons_of_mem _ hx))
  refine ⟨showMessage_toasts browser p message type, hcount p message type hmessage,
    rfl, rfl, ?_, rfl,
    (hall calls p message type hmessage hcalls).1, (hall calls p message type hmessage hcalls).2,
    fun text ht => messageToasts_text browser text ht⟩
  simp only [includes, toastMarkup, decide_eq_true_eq]
  refine ⟨("\n            <div style=\"display: flex; align-items: center; justify-content: space-between;\">\n                ").data, ("\n                <button type=\"button\" onclick=\"this.parentElement.parentElement.remove()\" style=\"background: none; border: none; font-size: 18px; cursor: pointer; margin-left: 10px;\">&times;</button>\n            </div>\n        ").data, ?_⟩
  simp [String.data_append]

/-- The amended C8 on the sample page: an error toast, then a success toast. -/
theorem showMessage_leaves_exactly_the_new_toast_witness :
    messageToasts sampleBrowser "Subscription failed. Please try again." = 0
      ∧ (showMessage sampleBrowser samplePage "Subscription failed. Please try again."
        "error").apiMessageCount = 1
      ∧ (showAll sampleBrowser
          (showMessage sampleBrowser samplePage "Subscription failed. Please try again." "error")
          [("Successfully subscribed to our newsletter!", "success")]).apiMessageCount = 1 :=
  have h := showMessage_leaves_exactly_the_new_toast sampleBrowser samplePage
    "Subscription failed. Please try again." "error"
    [("Successfully subscribed to our newsletter!", "success")]
    (by decide) (by decide)
  ⟨by decide, h.2.1, h.2.2.2.2.2.2.2.1⟩

/-! ### Elements of a form under the handlers -/

/-- The element `firstMatch` returns is at the position it returns and passes
the test. -/
theorem firstMatch_get (q : Elem → Bool) (xs : List Elem) (i : Nat) (b : Elem)
    (h : firstMatch q xs = some (i, b)) : xs[i]? = some b ∧ q b = true := by
  induction xs generalizing i with
  | nil => simp [firstMatch] at h
  | cons x rest ih =>
    unfold firstMatch at h
    by_cases hx : q x = true
    · simp [hx] at h
      obtain ⟨rfl, rfl⟩ := h
      exact ⟨by simp, hx⟩
    · simp [hx] at h
      cases hr : firstMatch q rest with
      | none => simp [hr] at h
      | some pr =>
        obtain ⟨j, y⟩ := pr
        simp [hr] at h
        obtain ⟨rfl, rfl⟩ := h
        simpa using ih j hr

/-- Mapping a function that does not change the test over the list maps the
element found and keeps its position. -/
theorem firstMatch_map (q : Elem → Bool) (g : Elem → Elem) (hg : ∀ e, q (g e) = q e)
    (xs : List Elem) :
    firstMatch q (xs.map g) = (firstMatch q xs).map fun r => (r.1, g r.2) := by
  induction xs with
  | nil => rfl
  | cons x rest ih =>
    simp only [List.map_cons, firstMatch, hg, ih]
    by_cases hx : q x = true
    · simp [hx]
    · simp [hx]
      cases firstMatch q rest with
      | none => rfl
      | some pr => rfl

/-- Updating the element found with a function that does not change the test
leaves it the first match. -/
theorem firstMatch_updateAt (q : Elem → Bool) (f : Elem → Elem) (hf : ∀ e, q (f e) = q e)
    (xs : List Elem) (i : Nat) (b : Elem) (h : firstMatch q xs = some (i, b)) :
    firstMatch q (updateAt i f xs) = some (i, f b) := by
  induction xs generalizing i with
  | nil => simp [firstMatch] at h
  | cons x rest ih =>
    unfold firstMatch at h
    by_cases hx : q x = true
    · simp [hx] at h
      obtain ⟨rfl, rfl⟩ := h
      simp [updateAt, firstMatch, hf, hx]
    · simp [hx] at h
      cases hr : firstMatch q rest with
      | none => simp [hr] at h
      | some pr =>
        obtain ⟨j, y⟩ := pr
        simp [hr] at h
        obtain ⟨rfl, rfl⟩ := h
        simp [updateAt, firstMatch, hx, ih j hr]

/-- Two element lists with the same submit-button flags have their first
submit button at the same position. -/
theorem firstMatch_submit_of_flags (xs ys : List Elem)
    (hflags : xs.map (fun e => e.isSubmitButton) = ys.map (fun e => e.isSubmitButton))
    (i : Nat) (b : Elem) (h : firstMatch (fun e => e.isSubmitButton) xs = some (i, b)) :
    ∃ c, firstMatch (fun e => e.isSubmitButton) ys = some (i, c) := by
  induction xs generalizing ys i with
  | nil => simp [firstMatch] at h
  | cons x rest ih =>
    cases ys with
    | nil => simp at hflags
    | cons y more =>
      simp only [List.map_cons, List.cons.injEq] at hflags
      obtain ⟨hxy, hrest⟩ := hflags
      unfold firstMatch at h
      by_cases hx : x.isSubmitButton = true
      · simp [hx] at h
        obtain ⟨rfl, rfl⟩ := h
        exact ⟨y, by simp [firstMatch, ← hxy, hx]⟩
      · simp [hx] at h
        cases hr : firstMatch (fun e => e.isSubmitButton) rest with
        | none => simp [hr] at h
        | some pr =>
          obtain ⟨j, z⟩ := pr
          simp [hr] at h
          obtain ⟨rfl, rfl⟩ := h
          obtain ⟨c, hc⟩ := ih more hrest j hr
          exact ⟨c, by simp [firstMatch, ← hxy, hx, hc]⟩

/-- An update that preserves an attribute preserves the list of that
attribute. -/
theorem map_updateAt_of_preserved {β : Type} (g : Elem → β) (f : Elem → Elem)
    (hf : ∀ e, g (f e) = g e) (i : Nat) (xs : List Elem) :
    (updateAt i f xs).map g = xs.map g := by
  induction xs generalizing i with
  | nil => simp [updateAt]
  | cons x rest ih =>
    cases i with
    | zero => simp [updateAt, hf]
    | succ n => simp [updateAt, ih]

/-- An update that preserves a test preserves whether all elements pass it. -/
theorem all_updateAt_of_preserved (q : Elem → Bool) (f : Elem → Elem)
    (hf : ∀ e, q (f e) = q e) (i : Nat) (xs : List Elem) :
    (updateAt i f xs).all q = xs.all q := by
  induction xs generalizing i with
  | nil => simp [updateAt]
  | cons x rest ih =>
    cases i with
    | zero => simp [updateAt, hf]
    | succ n => simp [updateAt, ih]

/-- The method `showMessage` does not touch the elements of the form. -/
theorem submitFlags_showMessage (browser : Browser) (p : Page) (message type : String) :
    submitFlags (showMessage browser p message type) = submitFlags p := rfl

/-- Clearing the highlights keeps every submit-button flag. -/
theorem submitFlags_clearErrors (p : Page) : submitFlags (clearErrors p) = submitFlags p := by
  simp only [submitFlags, clearErrors, List.map_map]
  apply List.map_congr_left
  intro e _
  by_cases h : e.isControl = true <;> simp [clearBorder, h]

/-- Attaching an inline error keeps every submit-button flag. -/
theorem submitFlags_attachError (p : Page) (i : Nat) (field : Elem) (text : String) :
    submitFlags (attachError p i field text) = submitFlags p := by
  unfold attachError submitFlags
  by_cases h : field.isCheckbox = true
  · simp [h]
  · simp only [h, if_false, Bool.false_eq_true]
    apply map_updateAt_of_preserved
    intro e
    rfl

/-- When the loop body does not throw, it keeps the submit-button flags. -/
theorem displayOne_ok (browser : Browser) (p q : Page) (error : ErrorItem)
    (h : displayOne browser p error = .ok q) : submitFlags q = submitFlags p := by
  unfold displayOne at h
  cases hf : error.field with
  | error e => simp [hf] at h
  | ok field =>
    simp only [hf] at h
    cases hn : jsString field with
    | error e => simp [hn] at h
    | ok name =>
      simp only [hn] at h
      cases hq : p.form.queryName browser name with
      | error e => simp [hq] at h
      | ok found =>
        simp only [hq] at h
        generalize (if found.isNone && isTerms field then p.form.queryTerms else found)
          = target at h
        cases target with
        | none =>
          cases hm : jsString error.message with
          | error e => simp [hm] at h
          | ok text =>
            simp only [hm, Except.ok.injEq] at h
            rw [← h]; rfl
        | some pr =>
          obtain ⟨i, el⟩ := pr
          cases hm : textContentOf error.message with
          | error e => simp [hm] at h
          | ok text =>
            simp only [hm, Except.ok.injEq] at h
            rw [← h]
            exact submitFlags_attachError p i el text

/-- A value with a string form also has a text for `textContent`. -/
theorem textContentOf_of_jsString (v : Option Json) (s : String) (h : jsString v = .ok s) :
    ∃ text, textContentOf v = .ok text := by
  cases v with
  | none => exact ⟨_, rfl⟩
  | some j =>
    cases j with
    | null => exact ⟨_, rfl⟩
    | bool b => exact ⟨s, h⟩
    | num t => exact ⟨s, h⟩
    | str t => exact ⟨s, h⟩
    | arr items => exact ⟨s, h⟩
    | obj props => exact ⟨s, h⟩

/-- The query of line 128 does not throw on a name whose selector parses. -/
theorem queryName_of_parses (browser : Browser) (form : Form) (name : String)
    (h : selectorParses browser name = true) : ∃ found, form.queryName browser name = .ok found := by
  unfold selectorParses at h
  unfold Form.queryName
  cases hk : nameKind name.data with
  | plain => exact ⟨_, rfl⟩
  | broken => simp [hk] at h
  | other =>
    simp only [hk] at h
    simp only [h, if_true]
    exact ⟨_, rfl⟩

/-- The loop body does not throw on a well-formed entry. -/
theorem displayOne_of_wellFormed (browser : Browser) (p : Page) (error : ErrorItem)
    (h : error.wellFormed browser = true) : ∃ q, displayOne browser p error = .ok q := by
  unfold ErrorItem.wellFormed at h
  cases hf : error.field with
  | error e => simp [hf] at h
  | ok field =>
    simp only [hf] at h
    cases hn : jsString field with
    | error e => simp [hn] at h
    | ok name =>
      simp only [hn, Bool.and_eq_true] at h
      obtain ⟨hparse, hmsg⟩ := h
      obtain ⟨found, hfound⟩ := queryName_of_parses browser p.form name hparse
      cases hm : jsString error.message with
      | error e => simp [hm] at hmsg
      | ok text =>
        obtain ⟨shown, hshown⟩ := textContentOf_of_jsString error.message text hm
        simp only [displayOne, hf, hn, hfound, hm, hshown]
        generalize (if found.isNone && isTerms field then p.form.queryTerms else found) = target
        cases target with
        | none => exact ⟨_, rfl⟩
        | some pr => exact ⟨_, rfl⟩

/-- The loop of lines 126-154 keeps the submit-button flags. -/
theorem submitFlags_displayAll (browser : Browser) (p : Page) (items : List ErrorItem) :
    submitFlags (displayAll browser p items).page = submitFlags p := by
  induction items generalizing p with
  | nil => rfl
  | cons error rest ih =>
    unfold displayAll
    cases h : displayOne browser p error with
    | error e => rfl
    | ok q =>
      simp only
      rw [ih q, displayOne_ok browser p q error h]

/-- The loop of lines 126-154 throws nothing when every entry is well formed. -/
theorem displayAll_no_escape (browser : Browser) (p : Page) (items : List ErrorItem)
    (h : ∀ error ∈ items, error.wellFormed browser = true) :
    (displayAll browser p items).escaped = none := by
  induction items generalizing p with
  | nil => rfl
  | cons error rest ih =>
    obtain ⟨q, hq⟩ := displayOne_of_wellFormed browser p error (h error (List.mem_cons_self _ _))
    unfold displayAll
    simp only [hq]
    exact ih q (fun x hx => h x (List.mem_cons_of_mem _ hx))

/-- The method `displayValidationErrors` keeps the submit-button flags. -/
theorem submitFlags_displayValidationErrors (browser : Browser) (p : Page)
    (errors : Option Json) :
    submitFlags (displayValidationErrors browser p errors).page = submitFlags p := by
  unfold displayValidationErrors
  cases errors with
  | none => exact submitFlags_clearErrors p
  | some e =>
    by_cases ht : e.truthy = true
    · simp only [ht, if_true]
      rw [submitFlags_displayAll, submitFlags_clearErrors]
    · simp only [ht, if_false, Bool.false_eq_true]
      exact submitFlags_clearErrors p

/-- A `catch` block keeps the submit-button flags. -/
theorem submitFlags_catchBlock (browser : Browser) (kind : FormKind) (p : Page)
    (error : JsError) : submitFlags (catchBlock browser kind p error).page = submitFlags p := by
  have hd := submitFlags_displayValidationErrors browser p (detailsErrors error)
  cases kind <;> unfold catchBlock <;> simp only
  · split
    · split <;> simp only [submitFlags_showMessage, hd]
    · rfl
  · split
    · split <;> simp only [submitFlags_showMessage, hd]
    · rfl
  · rfl

/-- The success branch keeps the submit-button flags. -/
theorem submitFlags_successFeedback (browser : Browser) (p : Page) (text : String) :
    submitFlags (successFeedback browser p text).page = submitFlags p := by
  unfold successFeedback
  simp only
  split
  · rfl
  · simp [submitFlags, showMessage, Form.reset]

/-- The rest of a `try` block keeps the submit-button flags. -/
theorem submitFlags_afterRequest (browser : Browser) (kind : FormKind) (p : Page)
    (outcome : FetchOutcome) :
    submitFlags (afterRequest browser kind p outcome).page = submitFlags p := by
  unfold afterRequest
  cases makeRequest outcome with
  | error e => rfl
  | ok result =>
    simp only
    cases result.getProp "success" with
    | error e => rfl
    | ok success =>
      simp only
      split
      · cases successText kind result with
        | error e => rfl
        | ok text => exact submitFlags_successFeedback browser p text
      · rfl

/-- The method `setLoading` keeps the submit-button flags. -/
theorem submitFlags_setLoadingAt (p : Page) (i : Nat) (isLoading : Bool) :
    submitFlags (setLoadingAt p i isLoading) = submitFlags p := by
  unfold submitFlags setLoadingAt
  apply map_updateAt_of_preserved
  intro e
  cases isLoading <;> simp [setLoading]

/-- The `finally` block leaves the submit button enabled, whatever ran before
it, as long as the button is still the first submit button of the form. -/
theorem finallyBlock_enables (p : Page) (r : Run) (i : Nat) (b : Elem)
    (hbutton : p.form.submitButton = some (i, b)) (hflags : submitFlags r.page = submitFlags p) :
    ∃ c, (finallyBlock i r).page.form.submitButton = some (i, c) ∧ c.disabled = false := by
  obtain ⟨c, hc⟩ := firstMatch_submit_of_flags p.form.elems r.page.form.elems hflags.symm i b hbutton
  refine ⟨setLoading c false, ?_, by simp [setLoading]⟩
  unfold finallyBlock setLoadingAt Form.submitButton
  exact firstMatch_updateAt _ _ (fun e => by simp [setLoading]) _ i c hc

/-- The `catch` and `finally` blocks leave the submit button enabled. -/
theorem catchFinally_enables (browser : Browser) (kind : FormKind) (p : Page) (tried : Run)
    (i : Nat) (b : Elem) (hbutton : p.form.submitButton = some (i, b))
    (hflags : submitFlags tried.page = submitFlags p) :
    ∃ c, (catchFinally browser kind i tried).page.form.submitButton = some (i, c)
      ∧ c.disabled = false := by
  unfold catchFinally
  apply finallyBlock_enables p _ i b hbutton
  cases h : tried.escaped with
  | none => exact hflags
  | some e =>
    simp only
    rw [submitFlags_catchBlock, hflags]

/-- A handler that resumes holding the submit button of the form leaves it
enabled. -/
theorem submitResume_enables (browser : Browser) (kind : FormKind) (p : Page) (i : Nat)
    (b : Elem) (outcome : FetchOutcome) (hbutton : p.form.submitButton = some (i, b)) :
    ∃ c, (submitResume browser kind p i outcome).page.form.submitButton = some (i, c)
      ∧ c.disabled = false :=
  catchFinally_enables browser kind p _ i b hbutton (submitFlags_afterRequest browser kind p outcome)

/-- After `setLoading(submitButton, true)` the submit button of the form is the
same element, in its loading state. -/
theorem setLoadingAt_start (p : Page) (i : Nat) (b : Elem)
    (hbutton : p.form.submitButton = some (i, b)) :
    (setLoadingAt p i true).form.submitButton = some (i, setLoading b true) := by
  unfold setLoadingAt Form.submitButton
  exact firstMatch_updateAt _ _ (fun e => by simp [setLoading]) _ i b hbutton

/-! ### Success -/

set_option maxRecDepth 100000 in
/-- C4, as stated, fails. On a 200 response whose body is the empty object the
contact handler shows no toast and does not reset the form. A registration
body whose `registrationNumber` has no string form, or that has no `data`,
ends in a failure toast without a reset, and so does any success on a form
with a control named `reset`. On a form without a submit button the handler
throws at once and shows nothing. -/
theorem success_without_flag_shows_nothing :
    responseOk 200 = true
      ∧ (submitHandler sampleBrowser .contact samplePage sampleInput
          (.response 200 (.ok (.obj [])))).page.toasts = []
      ∧ (submitHandler sampleBrowser .contact samplePage sampleInput
          (.response 200 (.ok (.obj [])))).page.form.isReset = false
      ∧ (submitHandler sampleBrowser .registration registrationPage registrationInput
          (.response 200 (.ok (.obj [("success", .bool true),
            ("data", .obj [("registrationNumber", .obj [("toString", .num "1")])])])))).page.toasts
          = [newToast sampleBrowser "Registration failed. Please try again later." "error"]
      ∧ (submitHandler sampleBrowser .registration registrationPage registrationInput
          (.response 200 (.ok (.obj [("success", .bool true)])))).page.toasts
          = [newToast sampleBrowser "Registration failed. Please try again later." "error"]
      ∧ (submitHandler sampleBrowser .contact resetNamedPage sampleInput
          (.response 200 (.ok (.obj [("success", .bool true)])))).page.toasts
          = [newToast sampleBrowser "Something went wrong. Please try again later." "error"]
      ∧ (submitHandler sampleBrowser .contact resetNamedPage sampleInput
          (.response 200 (.ok (.obj [("success", .bool true)])))).page.form.isReset = false
      ∧ (submitHandler sampleBrowser .contact buttonlessPage sampleInput
          (.response 200 (.ok (.obj [("success", .bool true)])))).escaped.isSome = true
      ∧ (submitHandler sampleBrowser .contact buttonlessPage sampleInput
          (.response 200 (.ok (.obj [("success", .bool true)])))).page.toasts = [] := by
  decide

/-- An update that preserves a test preserves whether some element passes
it. -/
theorem any_updateAt_of_preserved (q : Elem → Bool) (f : Elem → Elem)
    (hf : ∀ e, q (f e) = q e) (i : Nat) (xs : List Elem) :
    (updateAt i f xs).any q = xs.any q := by
  induction xs generalizing i with
  | nil => simp [updateAt]
  | cons x rest ih =>
    cases i with
    | zero => simp [updateAt, hf]
    | succ n => simp [updateAt, ih]

/-- The method `setLoading` does not change whether `reset` is shadowed. -/
theorem resetShadowed_setLoadingAt (p : Page) (i : Nat) (isLoading : Bool) :
    (setLoadingAt p i isLoading).form.resetShadowed = p.form.resetShadowed := by
  unfold setLoadingAt Form.resetShadowed
  apply any_updateAt_of_preserved
  intro e
  cases isLoading <;> simp [setLoading]

/-- On a 2xx response whose body has a truthy `success` (and, for a
registration, a registration number with a string form), on a form whose
`reset` is not shadowed, the rest of the `try` block throws nothing, shows the
success toast and resets the form. -/
theorem afterRequest_success (browser : Browser) (kind : FormKind) (p : Page) (status : Nat)
    (body : Json) (hok : responseOk status = true)
    (hsuccess : valTruthy (body.prop "success") = true)
    (hdata : kind = .registration → ∃ d number, body.prop "data" = some d ∧ d ≠ .null
      ∧ jsString (d.prop "registrationNumber") = .ok number)
    (hreset : p.form.resetShadowed = false) :
    ∃ text, successText kind body = .ok text
      ∧ afterRequest browser kind p (.response status (.ok body))
        = { page := { showMessage browser p text "success" with form := p.form.reset }
            escaped := none } := by
  have hget : body.getProp "success" = .ok (body.prop "success") := by
    cases body <;> first | rfl | simp [Json.prop, valTruthy] at hsuccess
  have htext : ∃ text, successText kind body = .ok text := by
    cases kind with
    | contact => exact ⟨_, rfl⟩
    | newsletter => exact ⟨_, rfl⟩
    | registration =>
      obtain ⟨d, number, hd, hnull, hnumber⟩ := hdata rfl
      have hprop : d.getProp "registrationNumber" = .ok (d.prop "registrationNumber") := by
        cases d <;> first | rfl | exact absurd rfl hnull
      have htext : successText .registration body
          = .ok ("Registration successful! Your registration number is " ++ number
            ++ ". Check your email for confirmation.") := by
        simp [successText, hd, valGetProp, hprop, hnumber]
      exact ⟨_, htext⟩
  obtain ⟨text, ht⟩ := htext
  refine ⟨text, ht, ?_⟩
  have hshown : (showMessage browser p text "success").form.resetShadowed = false := hreset
  simp [afterRequest, makeRequest, hok, hget, hsuccess, ht, successFeedback, hshown]
  rfl

/-- C4, amended: when the form has a submit button and no control named
`reset`, the handler sends its request, and the response has a status in
200-299 and a body whose `success` is truthy (and, for a registration, whose
`data` is neither missing nor `null` and holds a registration number with a
string form), the handler ends without an exception, the form is reset, and
the document holds exactly one toast, a new one with success styling; the
toasts that were there before are gone. -/
theorem success_resets_and_shows_one_toast (browser : Browser) (kind : FormKind) (p : Page)
    (input : FormInput) (status : Nat) (body : Json) (i : Nat) (b : Elem) (request : Request)
    (hbutton : p.form.submitButton = some (i, b))
    (hreset : p.form.resetShadowed = false)
    (hrequest : buildRequest kind input = .ok request)
    (hok : responseOk status = true)
    (hsuccess : valTruthy (body.prop "success") = true)
    (hdata : kind = .registration → ∃ d number, body.prop "data" = some d ∧ d ≠ .null
      ∧ jsString (d.prop "registrationNumber") = .ok number) :
    (submitHandler browser kind p input (.response status (.ok body))).escaped.isNone = true
      ∧ (submitHandler browser kind p input (.response status (.ok body))).page.form.isReset
          = true
      ∧ ∃ text, (submitHandler browser kind p input (.response status (.ok body))).page.toasts
            = [newToast browser text "success"]
          ∧ (newToast browser text "success").className = "api-message alert alert-success"
          ∧ (submitHandler browser kind p input
              (.response status (.ok body))).page.apiMessageCount
            = 1 + messageToasts browser text
          ∧ (kind ≠ .registration → messageToasts browser text = 0) := by
  have hloading : (setLoadingAt p i true).form.resetShadowed = false := by
    rw [resetShadowed_setLoadingAt]; exact hreset
  obtain ⟨text, htext, ht⟩ := afterRequest_success browser kind (setLoadingAt p i true) status
    body hok hsuccess hdata hloading
  have hrun : submitHandler browser kind p input (.response status (.ok body))
      = finallyBlock i
          { page := { showMessage browser (setLoadingAt p i true) text "success" with
              form := (setLoadingAt p i true).form.reset }
            escaped := none } := by
    simp [submitHandler, submitStart, hbutton, hrequest, submitResume, catchFinally, ht]
  rw [hrun]
  refine ⟨rfl, ?_, text, ?_, rfl, ?_, ?_⟩
  · simp only [finallyBlock, setLoadingAt, Form.isReset]
    rw [all_updateAt_of_preserved _ _ (fun e => by cases e; simp [setLoading])]
    simp [Form.reset]
  · simp [finallyBlock, setLoadingAt, showMessage]
  · simp [finallyBlock, setLoadingAt, showMessage, Page.apiMessageCount, newToast]
  · intro hkind
    cases kind with
    | registration => exact absurd rfl hkind
    | contact =>
      simp only [successText, Except.ok.injEq] at htext
      rw [← htext]
      exact messageToasts_text browser _ (by decide)
    | newsletter =>
      simp only [successText, Except.ok.injEq] at htext
      rw [← htext]
      exact messageToasts_text browser _ (by decide)

/-- The amended C4 on the sample page, for a registration that succeeds. -/
theorem success_resets_and_shows_one_toast_witness :
    (submitHandler sampleBrowser .registration samplePage sampleInput
        (.response 201 (.ok (.obj [("success", .bool true),
          ("data", .obj [("registrationNumber", .str "TG-0042")])])))).escaped.isNone = true
      ∧ (submitHandler sampleBrowser .registration samplePage sampleInput
        (.response 201 (.ok (.obj [("success", .bool true),
          ("data", .obj [("registrationNumber", .str "TG-0042")])])))).page.form.isReset = true
      ∧ ∃ text, (submitHandler sampleBrowser .registration samplePage sampleInput
        (.response 201 (.ok (.obj [("success", .bool true),
          ("data", .obj [("registrationNumber", .str "TG-0042")])])))).page.toasts
            = [newToast sampleBrowser text "success"]
          ∧ (newToast sampleBrowser text "success").className
            = "api-message alert alert-success" :=
  have h := success_resets_and_shows_one_toast sampleBrowser .registration samplePage sampleInput 201
    (.obj [("success", .bool true), ("data", .obj [("registrationNumber", .str "TG-0042")])])
    2 (submitButtonElem "Send" 3)
    { endpoint := "/api/register", method := "POST",
      body := .registration (registrationData sampleInput.formData sampleInput.interests) }
    (by decide) (by decide) (by rfl) (by decide) (by decide)
    (fun _ => ⟨.obj [("registrationNumber", .str "TG-0042")], "TG-0042", rfl, by simp, rfl⟩)
  ⟨h.1, h.2.1, h.2.2.elim fun text ht => ⟨text, ht.1, ht.2.1⟩⟩

/-! ### Failure -/

set_option maxRecDepth 100000 in
/-- C5: a field error for a field the form does not have is shown by
`displayValidationErrors` in a toast, but when the registration handler or the
contact handler has finished that toast is gone: the only toast of the
document is the generic one of lines 209 and 304, which does not carry the
message of the entry, and the form has no inline error either. -/
theorem unmatched_field_error_toast_is_replaced :
    (displayValidationErrors sampleBrowser registrationPage
        (some (.arr [.obj [("field", .str "firstName"),
          ("message", .str "First name is required")]]))).page.toasts
        = [newToast sampleBrowser "firstName: First name is required" "error"]
      ∧ (submitHandler sampleBrowser .registration registrationPage registrationInput
          unmatchedFieldFailure).page.toasts
        = [newToast sampleBrowser "Please fix the errors below and try again." "error"]
      ∧ (submitHandler sampleBrowser .registration registrationPage registrationInput
          unmatchedFieldFailure).page.form.fieldErrors = []
      ∧ (submitHandler sampleBrowser .contact samplePage sampleInput
          unmatchedFieldFailure).page.toasts
        = [newToast sampleBrowser "Please fix the errors below and try again." "error"]
      ∧ (submitHandler sampleBrowser .contact samplePage sampleInput
          unmatchedFieldFailure).page.form.fieldErrors = []
      ∧ includes
          (newToast sampleBrowser "Please fix the errors below and try again." "error").innerHTML
          "First name is required" = false := by
  refine ⟨by decide, by decide, by decide, by decide, by decide, ?_⟩
  decide

set_option maxRecDepth 100000 in
/-- C7, as stated, fails: when the `errors` array of a 400 response holds a
`null` entry, an entry whose `field` or `message` has no string form, or an
entry whose field name holds a line break, the contact handler lets an
exception escape and shows no toast. -/
theorem null_error_entry_escapes :
    (submitHandler sampleBrowser .contact samplePage sampleInput
        (failureWithEntry .null)).escaped.isSome = true
      ∧ (submitHandler sampleBrowser .contact samplePage sampleInput
        (failureWithEntry .null)).page.toasts = []
      ∧ (submitHandler sampleBrowser .contact samplePage sampleInput
        (failureWithEntry (.obj [("field", .obj [("toString", .num "1")]),
          ("message", .str "bad")]))).escaped.isSome = true
      ∧ (submitHandler sampleBrowser .contact samplePage sampleInput
        (failureWithEntry (.obj [("field", .str "email"),
          ("message", .obj [("toString", .num "1")])]))).escaped.isSome = true
      ∧ (submitHandler sampleBrowser .contact samplePage sampleInput
        (failureWithEntry (.obj [("field", .str "e\nmail"),
          ("message", .str "bad")]))).escaped.isSome = true
      ∧ (submitHandler sampleBrowser .contact samplePage sampleInput
        (failureWithEntry (.obj [("field", .str "e\nmail"),
          ("message", .str "bad")]))).page.toasts = [] := by
  decide

/-- A `catch` block whose field-error entries are well formed throws nothing
and leaves exactly one toast; the newsletter handler needs no condition. -/
theorem catchBlock_feedback (browser : Browser) (kind : FormKind) (p : Page) (error : JsError)
    (hwf : kind ≠ .newsletter → entriesWellFormed browser (detailsErrors error) = true) :
    (catchBlock browser kind p error).escaped = none
      ∧ (catchBlock browser kind p error).page.toasts.length = 1 := by
  have hshown : kind ≠ .newsletter → valTruthy (detailsErrors error) = true →
      (displayValidationErrors browser p (detailsErrors error)).escaped = none := by
    intro hk ht
    have hw := hwf hk
    unfold displayValidationErrors
    cases hd : detailsErrors error with
    | none => rfl
    | some e =>
      rw [hd] at hw ht
      simp only [valTruthy] at ht
      simp only [ht, if_true]
      apply displayAll_no_escape
      simpa [entriesWellFormed, List.all_eq_true] using hw
  cases kind with
  | newsletter => exact ⟨rfl, by simp [catchBlock, showMessage]⟩
  | contact =>
    unfold catchBlock
    by_cases ht : valTruthy (detailsErrors error) = true
    · simp [ht, hshown (by simp) ht, showMessage]
    · simp [ht, showMessage]
  | registration =>
    unfold catchBlock
    by_cases ht : valTruthy (detailsErrors error) = true
    · simp [ht, hshown (by simp) ht, showMessage]
    · simp [ht, showMessage]

/-- C7, amended: when the form has a submit button and the request fails
(`makeRequest` throws, for a transport failure or a response outside 200-299
with any parsed body), the newsletter handler, and the contact and
registration handlers when every entry of the `errors` of the failure is well
formed (no entry is `null`, the field and the message of every entry have a
string form, and the selector built from the field parses; `errors` may be an
array, an object or a string, and entries may lack a field), end without an
exception escaping, at least one toast is visible, and the submit button is
enabled. -/
theorem failure_is_caught_and_shown (browser : Browser) (kind : FormKind) (p : Page)
    (input : FormInput) (outcome : FetchOutcome) (i : Nat) (b : Elem) (error : JsError)
    (hbutton : p.form.submitButton = some (i, b))
    (hfail : makeRequest outcome = .error error)
    (hwf : kind ≠ .newsletter → entriesWellFormed browser (detailsErrors error) = true) :
    (submitHandler browser kind p input outcome).escaped = none
      ∧ 1 ≤ (submitHandler browser kind p input outcome).page.toasts.length
      ∧ ∃ c, (submitHandler browser kind p input outcome).page.form.submitButton = some (i, c)
          ∧ c.disabled = false := by
  have hloading := setLoadingAt_start p i b hbutton
  unfold submitHandler submitStart
  simp only [hbutton]
  cases hreq : buildRequest kind input with
  | ok request =>
    simp only
    have hafter : afterRequest browser kind (setLoadingAt p i true) outcome
        = { page := setLoadingAt p i true, escaped := some error } := by
      simp [afterRequest, hfail]
    have hcatch := catchBlock_feedback browser kind (setLoadingAt p i true) error hwf
    have hrun : submitResume browser kind (setLoadingAt p i true) i outcome
        = finallyBlock i (catchBlock browser kind (setLoadingAt p i true) error) := by
      simp only [submitResume, catchFinally, hafter]
    refine ⟨?_, ?_, submitResume_enables browser kind _ i _ outcome hloading⟩
    · rw [hrun]; exact hcatch.1
    · rw [hrun]
      show 1 ≤ (catchBlock browser kind (setLoadingAt p i true) error).page.toasts.length
      rw [hcatch.2]
  | error e =>
    simp only
    have hkind : kind = .newsletter := by
      cases kind <;> simp [buildRequest] at hreq ⊢
    subst hkind
    have hcatch := catchBlock_feedback browser .newsletter (setLoadingAt p i true) e
      (fun h => absurd rfl h)
    refine ⟨hcatch.1, ?_, ?_⟩
    · show 1 ≤ (catchBlock browser .newsletter (setLoadingAt p i true) e).page.toasts.length
      rw [hcatch.2]
    · exact catchFinally_enables browser .newsletter _ _ i _ hloading rfl

/-- The amended C7 on the sample page, for a 400 response with one field error
in the registration handler. -/
theorem failure_is_caught_and_shown_witness :
    (submitHandler sampleBrowser .registration samplePage sampleInput
        unmatchedFieldFailure).escaped = none
      ∧ 1 ≤ (submitHandler sampleBrowser .registration samplePage sampleInput
          unmatchedFieldFailure).page.toasts.length
      ∧ ∃ c, (submitHandler sampleBrowser .registration samplePage sampleInput
          unmatchedFieldFailure).page.form.submitButton = some (2, c) ∧ c.disabled = false :=
  failure_is_caught_and_shown sampleBrowser .registration samplePage sampleInput
    unmatchedFieldFailure 2 (submitButtonElem "Send" 3)
    { message := "Validation failed", status := some 400,
      details := some (.obj
        [("message", .str "Validation failed"),
         ("errors", .arr [.obj [("field", .str "firstName"),
            ("message", .str "First name is required")]])]) }
    (by decide) (by rfl) (fun _ => by decide)

/-! ### Inline errors -/

/-- C9, as stated, fails: a field error for `email` also changes the `name`
input, whose highlight from an earlier failure is cleared, and removes the
error element that was next to it. -/
theorem other_field_highlight_is_cleared :
    (displayValidationErrors sampleBrowser highlightedPage
        (some (.obj [("email", .str "invalid")]))).page.form.elems[1]?
        ≠ highlightedPage.form.elems[1]?
      ∧ ((displayValidationErrors sampleBrowser highlightedPage
        (some (.obj [("email", .str "invalid")]))).page.form.elems[1]?).map
          (fun e => e.borderColor) = some "" := by
  decide

/-- The element at the updated position is the updated element. -/
theorem getElem?_updateAt_self (f : Elem → Elem) (xs : List Elem) (i : Nat) (b : Elem)
    (h : xs[i]? = some b) : (updateAt i f xs)[i]? = some (f b) := by
  induction xs generalizing i with
  | nil => simp at h
  | cons x rest ih =>
    cases i with
    | zero =>
      simp at h
      simp [updateAt, h]
    | succ n =>
      simp at h
      simpa [updateAt] using ih n (by simpa using h)

/-- An update leaves the elements at the other positions as they are. -/
theorem getElem?_updateAt_ne (f : Elem → Elem) (xs : List Elem) (i j : Nat) (h : j ≠ i) :
    (updateAt i f xs)[j]? = xs[j]? := by
  induction xs generalizing i j with
  | nil => simp [updateAt]
  | cons x rest ih =>
    cases i with
    | zero =>
      cases j with
      | zero => exact absurd rfl h
      | succ m => simp [updateAt]
    | succ n =>
      cases j with
      | zero => simp [updateAt]
      | succ m => simpa [updateAt] using ih n m (by omega)

/-- A plain name is of the plain kind. -/
theorem nameKind_of_cssPlain (cs : List Char)
    (h : cs.all (fun c => c != Char.ofNat 34 && c != Char.ofNat 92 && c != Char.ofNat 10
      && c != Char.ofNat 13 && c != Char.ofNat 12 && c != Char.ofNat 0) = true) :
    nameKind cs = .plain := by
  induction cs with
  | nil => rfl
  | cons c rest ih =>
    simp only [List.all_cons, Bool.and_eq_true, bne_iff_ne, ne_eq] at h
    obtain ⟨⟨⟨⟨⟨⟨h34, h92⟩, h10⟩, h13⟩, h12⟩, h0⟩, hrest⟩ := h
    simp only [nameKind, h34, h92, h10, h13, h12, h0, decide_False, Bool.or_self, if_false,
      Bool.false_eq_true]
    exact ih hrest

/-- C9, amended: when `el`, at position `i`, is the first element of the form
named `f`, a plain name, `displayValidationErrors` on the single field error `f: m` throws
nothing, shows no toast, and leaves exactly one inline error element, with
text `m`: next to `el` when `el` is not a checkbox, and then `el` gets the
error border colour; in the checkbox container when it is, and then `el` is
not highlighted. Every other element keeps its state except that the border
colour of every `input, textarea, select` is cleared; the inline errors that
were there before are removed. -/
theorem single_field_error_is_attached (browser : Browser) (p : Page) (f m : String) (i : Nat)
    (el : Elem) (hplain : cssPlain f = true)
    (hfield : p.form.queryName browser f = .ok (some (i, el))) :
    (displayValidationErrors browser p (some (.obj [(f, .str m)]))).escaped = none
      ∧ (displayValidationErrors browser p (some (.obj [(f, .str m)]))).page.toasts = p.toasts
      ∧ (displayValidationErrors browser p (some (.obj [(f, .str m)]))).page.form.fieldErrors
          = [{ container := if el.isCheckbox then el.formCheck.getD el.parentNode
                            else el.parentNode
               className := "field-error text-danger small mt-1"
               textContent := m }]
      ∧ (displayValidationErrors browser p (some (.obj [(f, .str m)]))).page.form.elems[i]?
          = some (if el.isCheckbox then clearBorder el
                  else { clearBorder el with borderColor := "#dc3545" })
      ∧ ∀ j, j ≠ i →
          (displayValidationErrors browser p (some (.obj [(f, .str m)]))).page.form.elems[j]?
            = (p.form.elems[j]?).map clearBorder := by
  have hkind := nameKind_of_cssPlain f.data (by simpa [cssPlain] using hplain)
  have hfirst : firstMatch (fun e => e.name == some f) p.form.elems = some (i, el) := by
    simpa [Form.queryName, hkind] using hfield
  have hget := (firstMatch_get _ _ i el hfirst).1
  have hcleared : firstMatch (fun e => e.name == some f) (p.form.elems.map clearBorder)
      = some (i, clearBorder el) := by
    rw [firstMatch_map _ clearBorder (fun e => by
      by_cases h : e.isControl = true <;> simp [clearBorder, h]), hfirst]
    rfl
  have hbox : (clearBorder el).isCheckbox = el.isCheckbox := by
    by_cases h : el.isControl = true <;> simp [clearBorder, h]
  have hparent : (clearBorder el).parentNode = el.parentNode := by
    by_cases h : el.isControl = true <;> simp [clearBorder, h]
  have hcheck : (clearBorder el).formCheck = el.formCheck := by
    by_cases h : el.isControl = true <;> simp [clearBorder, h]
  have hrun : displayValidationErrors browser p (some (.obj [(f, .str m)]))
      = { page := attachError (clearErrors p) i (clearBorder el) m
          escaped := none } := by
    simp [displayValidationErrors, Json.truthy, errorList, lookupProp, displayAll, displayOne,
      ErrorItem.field, ErrorItem.message, jsString, textContentOf, Json.toStr, Form.queryName,
      hkind, clearErrors, hcleared]
  have hgetc : (p.form.elems.map clearBorder)[i]? = some (clearBorder el) := by
    rw [List.getElem?_map, hget]
    rfl
  have hattach : ∀ q : Page, ∀ c : Elem, ∀ msg : String,
      (attachError q i c msg).toasts = q.toasts
        ∧ (attachError q i c msg).form.fieldErrors = q.form.fieldErrors ++
            [{ container := if c.isCheckbox then c.formCheck.getD c.parentNode else c.parentNode
               className := "field-error text-danger small mt-1"
               textContent := msg }]
        ∧ (attachError q i c msg).form.elems
            = if c.isCheckbox then q.form.elems
              else updateAt i (fun e => { e with borderColor := "#dc3545" }) q.form.elems := by
    intro q c msg
    cases hc : c.isCheckbox <;> simp [attachError, hc]
  obtain ⟨htoasts, herrors, helems⟩ :=
    hattach (clearErrors p) (clearBorder el) m
  rw [hrun]
  refine ⟨rfl, htoasts, ?_, ?_, ?_⟩
  · show (attachError (clearErrors p) i (clearBorder el) m).form.fieldErrors = _
    rw [herrors, hbox, hparent, hcheck]
    simp [clearErrors]
  · show (attachError (clearErrors p) i (clearBorder el) m).form.elems[i]? = _
    rw [helems, hbox]
    by_cases hb : el.isCheckbox = true
    · rw [if_pos hb, if_pos hb]
      exact hgetc
    · rw [if_neg hb, if_neg hb]
      exact getElem?_updateAt_self _ _ i _ hgetc
  · intro j hj
    show (attachError (clearErrors p) i (clearBorder el) m).form.elems[j]? = _
    rw [helems, hbox]
    by_cases hb : el.isCheckbox = true
    · rw [if_pos hb]
      exact List.getElem?_map _ _ _
    · rw [if_neg hb, getElem?_updateAt_ne _ _ i j hj]
      exact List.getElem?_map _ _ _

/-- The amended C9 on the page with a highlighted `name` input, for the field
error `email: invalid`. -/
theorem single_field_error_is_attached_witness :
    (displayValidationErrors sampleBrowser highlightedPage (some (.obj [("email", .str "invalid")]))).escaped
        = none
      ∧ (displayValidationErrors sampleBrowser highlightedPage
          (some (.obj [("email", .str "invalid")]))).page.form.fieldErrors
          = [{ container := 1, className := "field-error text-danger small mt-1",
               textContent := "invalid" }]
      ∧ ((displayValidationErrors sampleBrowser highlightedPage
          (some (.obj [("email", .str "invalid")]))).page.form.elems[0]?).map
            (fun e => e.borderColor) = some "#dc3545" := by
  have h := single_field_error_is_attached sampleBrowser highlightedPage "email" "invalid" 0
    (textInput "email" "ada" 1) (by decide) (by rfl)
  refine ⟨h.1, h.2.2.1, ?_⟩
  rw [h.2.2.2.1]
  decide


/-! ### Submissions in flight -/

/-- C10, as stated, fails: the handler does not look at the button, so a
second submit event that arrives while the button is disabled sends a second
request while the first is still in flight. -/
theorem second_submit_sends_second_request :
    (Session.step sampleBrowser .contact { page := samplePage, inFlight := [] }
        (.submit sampleInput)).buttonEnabled = false
      ∧ (Session.run sampleBrowser .contact { page := samplePage, inFlight := [] }
        [.submit sampleInput, .submit sampleInput]).inFlight.length = 2 := by
  decide

/-- The state of a form between events when every submit event arrived while
the button was enabled: no request is in flight and the button is enabled, or
one request is in flight, its handler holds the button, and the button is
disabled. -/
theorem Session.step_keeps_single_flight (browser : Browser) (kind : FormKind) (s : Session) (event : Event)
    (hinv : ∃ i b, s.page.form.submitButton = some (i, b)
      ∧ ((s.inFlight = [] ∧ b.disabled = false) ∨ (s.inFlight = [i] ∧ b.disabled = true)))
    (hguard : ∀ input, event = .submit input → s.buttonEnabled = true) :
    ∃ i b, (s.step browser kind event).page.form.submitButton = some (i, b)
      ∧ (((s.step browser kind event).inFlight = [] ∧ b.disabled = false)
        ∨ ((s.step browser kind event).inFlight = [i] ∧ b.disabled = true)) := by
  obtain ⟨i, b, hbutton, hstate⟩ := hinv
  cases event with
  | submit input =>
    have henabled := hguard input rfl
    simp only [Session.buttonEnabled, hbutton, Bool.not_eq_true', Bool.not_eq_eq_eq_not,
      Bool.not_true] at henabled
    have hidle : s.inFlight = [] := by
      rcases hstate with h | h
      · exact h.1
      · rw [h.2] at henabled; exact absurd henabled (by simp)
    have hloading := setLoadingAt_start s.page i b hbutton
    simp only [Session.step, submitStart, hbutton]
    cases hreq : buildRequest kind input with
    | ok request =>
      refine ⟨i, setLoading b true, hloading, Or.inr ⟨?_, by simp [setLoading]⟩⟩
      simp [hidle]
    | error e =>
      obtain ⟨c, hc, hdis⟩ := catchFinally_enables browser kind (setLoadingAt s.page i true)
        { page := setLoadingAt s.page i true, escaped := some e } i _ hloading rfl
      exact ⟨i, c, hc, Or.inl ⟨hidle, hdis⟩⟩
  | complete position outcome =>
    rcases hstate with ⟨hidle, hdis⟩ | ⟨hbusy, hdis⟩
    · refine ⟨i, b, ?_, Or.inl ⟨?_, hdis⟩⟩ <;> simp [Session.step, hidle, hbutton]
    · cases position with
      | zero =>
        obtain ⟨c, hc, hcdis⟩ := submitResume_enables browser kind s.page i b outcome hbutton
        refine ⟨i, c, ?_, Or.inl ⟨?_, hcdis⟩⟩
        · simpa [Session.step, hbusy] using hc
        · simp [Session.step, hbusy]
      | succ n =>
        refine ⟨i, b, ?_, Or.inr ⟨?_, hdis⟩⟩ <;> simp [Session.step, hbusy, hbutton]

/-- C10, amended: starting from a form with an enabled submit button and no
request in flight, after any sequence of submit events and request completions
in which every submit event arrives while the button is enabled, at most one
request of the form is in flight, and the button is disabled exactly while one
is. The handler itself does not stop a submit event that arrives while the
button is disabled. -/
theorem at_most_one_request_in_flight (browser : Browser) (kind : FormKind) (s : Session) (events : List Event)
    (hidle : s.inFlight = []) (henabled : s.buttonEnabled = true)
    (hguard : s.submitsWhileEnabled browser kind events = true) :
    (s.run browser kind events).inFlight.length ≤ 1
      ∧ ((s.run browser kind events).inFlight = [] ↔ (s.run browser kind events).buttonEnabled = true) := by
  have hinv : ∃ i b, s.page.form.submitButton = some (i, b)
      ∧ ((s.inFlight = [] ∧ b.disabled = false) ∨ (s.inFlight = [i] ∧ b.disabled = true)) := by
    unfold Session.buttonEnabled at henabled
    cases hb : s.page.form.submitButton with
    | none => simp [hb] at henabled
    | some pr =>
      obtain ⟨i, b⟩ := pr
      simp [hb] at henabled
      exact ⟨i, b, rfl, Or.inl ⟨hidle, henabled⟩⟩
  clear hidle henabled
  have hfinal : ∃ i b, (s.run browser kind events).page.form.submitButton = some (i, b)
      ∧ (((s.run browser kind events).inFlight = [] ∧ b.disabled = false)
        ∨ ((s.run browser kind events).inFlight = [i] ∧ b.disabled = true)) := by
    induction events generalizing s with
    | nil => exact hinv
    | cons event rest ih =>
      have hstep : s.submitsWhileEnabled browser kind (event :: rest) = true →
          (∀ input, event = .submit input → s.buttonEnabled = true)
            ∧ (s.step browser kind event).submitsWhileEnabled browser kind rest = true := by
        intro h
        cases event with
        | submit input =>
          simp only [Session.submitsWhileEnabled, Bool.and_eq_true] at h
          exact ⟨fun _ _ => h.1, h.2⟩
        | complete position outcome =>
          simp only [Session.submitsWhileEnabled] at h
          exact ⟨fun _ hne => (nomatch hne), h⟩
      obtain ⟨hfirst, hrest⟩ := hstep hguard
      exact ih (s.step browser kind event) hrest
        (Session.step_keeps_single_flight browser kind s event hinv hfirst)
  obtain ⟨i, b, hbutton, hstate⟩ := hfinal
  rcases hstate with ⟨hnone, hdis⟩ | ⟨hone, hdis⟩
  · simp [hnone, Session.buttonEnabled, hbutton, hdis]
  · simp [hone, Session.buttonEnabled, hbutton, hdis]

/-- The amended C10 on the sample page: a submission, its completion with a
failure, and a second submission. -/
theorem at_most_one_request_in_flight_witness :
    (Session.run sampleBrowser .contact { page := samplePage, inFlight := [] }
        [.submit sampleInput, .complete 0 (.rejected "Failed to fetch"),
          .submit sampleInput]).inFlight.length ≤ 1
      ∧ ((Session.run sampleBrowser .contact { page := samplePage, inFlight := [] }
          [.submit sampleInput, .complete 0 (.rejected "Failed to fetch"),
            .submit sampleInput]).inFlight = []
        ↔ (Session.run sampleBrowser .contact { page := samplePage, inFlight := [] }
          [.submit sampleInput, .complete 0 (.rejected "Failed to fetch"),
            .submit sampleInput]).buttonEnabled = true) :=
  at_most_one_request_in_flight sampleBrowser .contact { page := samplePage, inFlight := [] }
    [.submit sampleInput, .complete 0 (.rejected "Failed to fetch"), .submit sampleInput]
    rfl (by decide) (by decide)
end TechGrid
